import Mathlib

/-!
Verification of the DisplayWarp window-placement and monitor-topology core.

The development shallowly embeds the Rust sources:
* `src/monitor.rs` — primary-monitor switch and restore over an explicit
  display-configuration state;
* `src/window.rs` — one-shot window move, launch-and-lock placement (the
  evolved variant), watcher loop, the by-name window locator and its scoring,
  and the visible-window listing;
* `src/main.rs` — the earlier variants of the locator, placement loop and the
  force-primary launch path;
* `src/app.rs` — target-rectangle resolution and the front half of
  `launch_profile`.

OS boundaries (windowing, display configuration, process queries) are modelled
by explicit state or by per-step environment observations, and the functions
return the sequence of OS calls or events they issue, so that temporal and
error-handling claims become statements about traces.
-/

namespace DisplayWarp

/-- A Win32 `RECT` in virtual-screen coordinates: `left`, `top`, `right`,
`bottom` in pixels. -/
structure Rect where
  left : Int
  top : Int
  right : Int
  bottom : Int
deriving DecidableEq, Repr

/-- `MonitorInfo` (src/models.rs, src/main.rs): one enumerated display with its
placement rectangle and stable device name. -/
structure MonitorInfo where
  device_name : String
  rect : Rect
deriving DecidableEq, Repr

/-- `SavedMonitorPos` (src/models.rs, src/main.rs): one entry of the layout
snapshot taken before a primary switch. -/
structure SavedMonitorPos where
  device_name : String
  rect : Rect
deriving DecidableEq, Repr

/-- The OS display-configuration state read by `EnumDisplaySettingsW` and
mutated by `ChangeDisplaySettingsExW`: the current mode rectangle of each
device name, and the device currently designated primary (Windows keeps
exactly one primary display). -/
structure DisplayState where
  modes : String → Option Rect
  primary : Option String

/-- One position-only `ChangeDisplaySettingsExW` call as issued by the source:
the current mode of `device` is read first (`EnumDisplaySettingsW`; a device
with no current settings is skipped, matching the loop's `continue`), then a
`DM_POSITION` change replaces its position by `(x, y)` keeping its size, and
when the `CDS_SET_PRIMARY` flag is passed `device` becomes the primary
display. The `CDS_NORESET`-deferred commit is modelled eagerly: between the
per-device calls and the final flush the source reads only mode sizes, which
no pending position change touches, so the final state is the same. -/
def applyPositionChange (st : DisplayState) (device : String) (x y : Int)
    (setPrimary : Bool) : DisplayState :=
  match st.modes device with
  | none => st
  | some r =>
    { modes := fun n => if n = device then
        some { left := x, top := y,
               right := x + (r.right - r.left), bottom := y + (r.bottom - r.top) }
      else st.modes n
      primary := if setPrimary then some device else st.primary }

/-- `switch_primary_to` (src/monitor.rs:53, src/main.rs:929): make
`target_device_name` the primary monitor by shifting every monitor's position
so the target sits at `(0, 0)`; each monitor receives a position-only change,
the target additionally `CDS_SET_PRIMARY`. Returns `false` and changes nothing
when the target is not among `monitors`. -/
def switch_primary_to (target_device_name : String) (monitors : List MonitorInfo)
    (st : DisplayState) : Bool × DisplayState :=
  match monitors.find? (fun m => m.device_name == target_device_name) with
  | none => (false, st)
  | some target =>
    let offset_x := target.rect.left
    let offset_y := target.rect.top
    (true, monitors.foldl (fun s mon =>
      applyPositionChange s mon.device_name
        (mon.rect.left - offset_x) (mon.rect.top - offset_y)
        (mon.device_name == target_device_name)) st)

/-- `restore_monitor_layout` (src/monitor.rs:102, src/main.rs:984): replay a
layout snapshot with per-device position-only changes, re-marking as primary
the entry whose saved top-left corner is the origin `(0, 0)`. -/
def restore_monitor_layout (snapshot : List SavedMonitorPos)
    (st : DisplayState) : DisplayState :=
  snapshot.foldl (fun s saved =>
    applyPositionChange s saved.device_name saved.rect.left saved.rect.top
      (saved.rect.left == 0 && saved.rect.top == 0)) st

/-- The display state a fresh `get_all_monitors` enumeration reflects: every
enumerated device's current mode is its enumerated rectangle.  The primary
designation is left arbitrary. -/
def stateOf (monitors : List MonitorInfo) (primary : Option String) : DisplayState :=
  { modes := fun n => (monitors.find? (fun m => m.device_name == n)).map (fun m => m.rect)
    primary := primary }

/-- The snapshot taken by the force-primary launch path (src/main.rs:169-175):
device name and current rectangle of every enumerated monitor. -/
def snapshotOf (monitors : List MonitorInfo) : List SavedMonitorPos :=
  monitors.map (fun m => { device_name := m.device_name, rect := m.rect })

/-- Common shape of the `switch_primary_to` and `restore_monitor_layout`
loops: one position-only display change per list element, keyed by a device
name. -/
def applyAll {α : Type} (key : α → String) (fx fy : α → Int) (fb : α → Bool)
    (l : List α) (st : DisplayState) : DisplayState :=
  l.foldl (fun s a => applyPositionChange s (key a) (fx a) (fy a) (fb a)) st

/-! ### Window-call traces (src/window.rs, src/main.rs) -/

/-- `SW_MAXIMIZE` show command (Win32 value 3). -/
def SW_MAXIMIZE : Nat := 3

/-- `SW_SHOWMAXIMIZED` show command (Win32 value 3, same as `SW_MAXIMIZE`). -/
def SW_SHOWMAXIMIZED : Nat := 3

/-- `SW_RESTORE` show command (Win32 value 9). -/
def SW_RESTORE : Nat := 9

/-- One OS windowing call issued by the placement engine. -/
inductive WinCall where
  | isWindow (alive : Bool)
  | getPlacement
  | setPlacement (showCmd : Nat) (rcNormalPosition : Rect)
  | setWindowPos (x y cx cy : Int)
  | showWindow (cmd : Nat)
  | bringToTop
  | setForeground
deriving DecidableEq, Repr

/-- The fields of a `WINDOWPLACEMENT` the engine reads and writes. -/
structure WindowPlacement where
  showCmd : Nat
  rcNormalPosition : Rect
deriving DecidableEq, Repr

/-- One environment observation about the moved window: whether `IsWindow`
still reports it alive, and whether `MonitorFromWindow` equals the target
monitor at this step's check. -/
structure WindowObs where
  alive : Bool
  onTarget : Bool
deriving DecidableEq, Repr

/-- `move_window_once` (src/window.rs:245-290) as the ordered list of OS calls
it issues, given the `IsWindow` answer and the placement read back by
`GetWindowPlacement`.  The stored normal rectangle is rewritten to a
three-quarter-size rectangle centred in the target before the direct move;
maximization is re-issued only when the placement was maximized.  Rust `i32`
division truncates toward zero, hence `Int.tdiv`. -/
def move_window_once (alive : Bool) (placement : WindowPlacement)
    (target_rect : Rect) : List WinCall :=
  let w := target_rect.right - target_rect.left
  let h := target_rect.bottom - target_rect.top
  if !alive then [WinCall.isWindow false]
  else
    let was_maximized := placement.showCmd == SW_MAXIMIZE
      || placement.showCmd == SW_SHOWMAXIMIZED
    let win_w := Int.tdiv (w * 3) 4
    let win_h := Int.tdiv (h * 3) 4
    let win_x := target_rect.left + Int.tdiv (w - win_w) 2
    let win_y := target_rect.top + Int.tdiv (h - win_h) 2
    [WinCall.isWindow true, WinCall.getPlacement,
     WinCall.setPlacement SW_RESTORE
       { left := win_x, top := win_y, right := win_x + win_w, bottom := win_y + win_h },
     WinCall.setWindowPos target_rect.left target_rect.top w h]
    ++ (if was_maximized then [WinCall.showWindow SW_MAXIMIZE] else [])
    ++ [WinCall.bringToTop, WinCall.setForeground]

/-- The corrective calls one watch tick issues when the window has drifted off
the target monitor (src/window.rs:308-320, src/main.rs:896-912): foreground,
restore, reposition — and no maximize. -/
def corrective_calls (target_rect : Rect) : List WinCall :=
  [WinCall.bringToTop, WinCall.setForeground, WinCall.showWindow SW_RESTORE,
   WinCall.setWindowPos target_rect.left target_rect.top
     (target_rect.right - target_rect.left) (target_rect.bottom - target_rect.top)]

/-- The phase-2 watch loop of the evolved variant (src/window.rs:382-405, and
identically `watch_window_on_monitor`, src/window.rs:295-324): each 1-second
tick checks `IsWindow` first and returns silently when the window is gone,
otherwise issues the corrective calls exactly when the window is off the
target monitor.  One trace entry per executed tick. -/
def watch_loop (target_rect : Rect) : List WindowObs → List (List WinCall)
  | [] => []
  | o :: rest =>
    if o.alive then
      (WinCall.isWindow true ::
        (if o.onTarget then [] else corrective_calls target_rect))
        :: watch_loop target_rect rest
    else [[WinCall.isWindow false]]

/-- The phase-2 watch loop of the earlier variant (src/main.rs:892-916): same
tick body but with no liveness check. -/
def watch_loop_v0 (target_rect : Rect) : List WindowObs → List (List WinCall)
  | [] => []
  | o :: rest =>
    (if o.onTarget then [] else corrective_calls target_rect)
      :: watch_loop_v0 target_rect rest

/-- The calls of one phase-1 settle attempt of the evolved `move_to_monitor`
(src/window.rs:332-379): read placement, rewrite the normal rectangle to the
centred three-quarter rectangle, apply it, foreground, reposition onto the
target, then force-maximize. -/
def attempt_calls (target_rect : Rect) : List WinCall :=
  let w := target_rect.right - target_rect.left
  let h := target_rect.bottom - target_rect.top
  let win_w := Int.tdiv (w * 3) 4
  let win_h := Int.tdiv (h * 3) 4
  let win_x := target_rect.left + Int.tdiv (w - win_w) 2
  let win_y := target_rect.top + Int.tdiv (h - win_h) 2
  [WinCall.getPlacement,
   WinCall.setPlacement SW_RESTORE
     { left := win_x, top := win_y, right := win_x + win_w, bottom := win_y + win_h },
   WinCall.bringToTop, WinCall.setForeground,
   WinCall.setWindowPos target_rect.left target_rect.top w h,
   WinCall.showWindow SW_MAXIMIZE]

/-- Phase 1 of the evolved `move_to_monitor`: up to the given attempts, each
checking `IsWindow` first (returning the whole operation when the window is
gone — the `Bool` records that early death) and stopping early once the
post-attempt monitor check reports the target monitor. -/
def settle_attempts (target_rect : Rect) :
    List WindowObs → List (List WinCall) × Bool
  | [] => ([], false)
  | o :: rest =>
    if o.alive then
      if o.onTarget then ([WinCall.isWindow true :: attempt_calls target_rect], false)
      else
        let next := settle_attempts target_rect rest
        ((WinCall.isWindow true :: attempt_calls target_rect) :: next.1, next.2)
    else ([[WinCall.isWindow false]], true)

/-- The evolved `move_to_monitor` (src/window.rs:327-406): 12 phase-1 settle
attempts, then — unless the window died during phase 1 — the 45-second phase-2
watch loop.  One trace entry per executed attempt or tick. -/
def move_to_monitor (target_rect : Rect) (phase1 phase2 : List WindowObs) :
    List (List WinCall) :=
  let settled := settle_attempts target_rect (phase1.take 12)
  if settled.2 then settled.1 else settled.1 ++ watch_loop target_rect phase2

/-- The calls of one phase-1 attempt of the earlier `move_to_monitor`
(src/main.rs:866-885): foreground, restore, reposition, force-maximize — with
no placement rewrite and no liveness check. -/
def attempt_calls_v0 (target_rect : Rect) : List WinCall :=
  [WinCall.bringToTop, WinCall.setForeground, WinCall.showWindow SW_RESTORE,
   WinCall.setWindowPos target_rect.left target_rect.top
     (target_rect.right - target_rect.left) (target_rect.bottom - target_rect.top),
   WinCall.showWindow SW_MAXIMIZE]

/-- Phase 1 of the earlier `move_to_monitor`: same early break on reaching the
target monitor, but no liveness checks at all. -/
def settle_attempts_v0 (target_rect : Rect) :
    List WindowObs → List (List WinCall)
  | [] => []
  | o :: rest =>
    if o.onTarget then [attempt_calls_v0 target_rect]
    else attempt_calls_v0 target_rect :: settle_attempts_v0 target_rect rest

/-- The earlier `move_to_monitor` (src/main.rs:860-917): 12 phase-1 attempts
then the 45-second watch loop, never checking `IsWindow`. -/
def move_to_monitor_v0 (target_rect : Rect) (phase1 phase2 : List WindowObs) :
    List (List WinCall) :=
  settle_attempts_v0 target_rect (phase1.take 12) ++ watch_loop_v0 target_rect phase2

/-- Watch-phase duration in seconds (src/window.rs:382, src/main.rs:892). -/
def WATCH_PHASE_SECS : Nat := 45

/-- Watch-tick interval in milliseconds (src/window.rs:384, src/main.rs:894). -/
def WATCH_TICK_MILLIS : Nat := 1000

/-! ### By-name window locator (src/window.rs:110-207, src/main.rs:734-801) -/

/-- One top-level window as the `EnumWindows` callbacks observe it: visibility,
owning pid, whether `OpenProcess` and `QueryFullProcessImageNameW` succeed,
the returned image path, the `WS_EX_TOOLWINDOW` extended-style bit, whether
`GetWindowRect` succeeds and what it returns, and the
`GetWindowTextLengthW` result. -/
structure EnumWindow where
  hwnd : Int
  visible : Bool
  pid : Nat
  openOk : Bool
  queryOk : Bool
  fullPath : String
  toolWindow : Bool
  rectOk : Bool
  rect : Rect
  titleLen : Nat
deriving DecidableEq, Repr

/-- ASCII lowercasing of a string, character by character, modelling Rust's
`str::to_lowercase` on the ASCII executable names the locator compares. -/
def lowercase (s : String) : String :=
  String.mk (s.data.map Char.toLower)

/-- Rust `str::trim_matches('\0')`: strip leading and trailing NUL
characters. -/
def trimNullChars (s : String) : String :=
  String.mk (((s.data.dropWhile (fun c => c == Char.ofNat 0)).reverse.dropWhile
    (fun c => c == Char.ofNat 0)).reverse)

/-- Rust `str::split(['/', '\\'])` on the character list: split at every slash
or backslash, keeping empty segments. -/
def splitPathChars : List Char → List (List Char)
  | [] => [[]]
  | c :: cs =>
    let rest := splitPathChars cs
    if c == '/' || c == '\\' then [] :: rest
    else
      match rest with
      | [] => [[c]]
      | seg :: segs => (c :: seg) :: segs

/-- Executable-name extraction of the evolved callback (src/window.rs:160-166):
lowercase the full image path, trim NULs, take the last slash-separated
segment. -/
def exe_name_v1 (fullPath : String) : String :=
  String.mk ((splitPathChars (trimNullChars (lowercase fullPath)).data).getLast?.getD [])

/-- Executable-name extraction of the earlier callback (src/main.rs:774-775):
lowercase the full image path and take the last slash-separated segment (no
NUL trimming). -/
def exe_name_v0 (fullPath : String) : String :=
  String.mk ((splitPathChars (lowercase fullPath).data).getLast?.getD [])

/-- `WindowCandidate` of the evolved locator (src/window.rs:45-50). -/
structure WindowCandidate where
  hwnd : Int
  score : Int
  width : Int
  height : Int
deriving DecidableEq, Repr

/-- `WindowCandidate` of the earlier locator (src/main.rs:724-727). -/
structure WindowCandidateV0 where
  hwnd : Int
  score : Int
deriving DecidableEq, Repr

/-- Candidate scoring of the evolved callback (src/window.rs:169-193): −50 for
tool windows; −100 for windows narrower than 480 or shorter than 270 pixels,
otherwise +`area/10000` capped at 200; +20 for a non-empty title. -/
def score_v1 (w : EnumWindow) : Int :=
  let score : Int := 0
  let score := if w.toolWindow then score - 50 else score
  let score :=
    if w.rectOk then
      let wd := w.rect.right - w.rect.left
      let ht := w.rect.bottom - w.rect.top
      let area := max (wd * ht) 0
      if wd < 480 || ht < 270 then score - 100
      else score + min (Int.tdiv area 10000) 200
    else score
  if w.titleLen > 0 then score + 20 else score

/-- Candidate scoring of the earlier callback (src/main.rs:777-795): +20 for a
non-empty title, −50 for tool windows, +`area/10000` capped at 100. -/
def score_v0 (w : EnumWindow) : Int :=
  let score : Int := 0
  let score := if w.titleLen > 0 then score + 20 else score
  let score := if w.toolWindow then score - 50 else score
  if w.rectOk then
    score + min (Int.tdiv (max ((w.rect.right - w.rect.left) * (w.rect.bottom - w.rect.top)) 0) 10000) 100
  else score

/-- Gate of the evolved callback: invisible windows, pid 0, failed process
opens/queries, and non-matching executable names are skipped. -/
def matches_target_v1 (target : String) (w : EnumWindow) : Bool :=
  w.visible && w.pid != 0 && w.openOk && w.queryOk && (exe_name_v1 w.fullPath == target)

/-- Gate of the earlier callback (src/main.rs:752-776), identical but for the
executable-name extraction. -/
def matches_target_v0 (target : String) (w : EnumWindow) : Bool :=
  w.visible && w.pid != 0 && w.openOk && w.queryOk && (exe_name_v0 w.fullPath == target)

/-- The candidate the evolved callback pushes: width and height stay 0 when
`GetWindowRect` failed (src/window.rs:170-199). -/
def candidate_v1 (w : EnumWindow) : WindowCandidate :=
  { hwnd := w.hwnd, score := score_v1 w,
    width := if w.rectOk then w.rect.right - w.rect.left else 0,
    height := if w.rectOk then w.rect.bottom - w.rect.top else 0 }

/-- Candidate list collected by one `EnumWindows` pass of the evolved
locator, in enumeration order. -/
def candidates_v1 (target : String) (ws : List EnumWindow) : List WindowCandidate :=
  ws.filterMap (fun w =>
    if matches_target_v1 target w then some (candidate_v1 w) else none)

/-- Candidate list collected by one `EnumWindows` pass of the earlier
locator. -/
def candidates_v0 (target : String) (ws : List EnumWindow) : List WindowCandidateV0 :=
  ws.filterMap (fun w =>
    if matches_target_v0 target w then some { hwnd := w.hwnd, score := score_v0 w } else none)

/-- Rust `Iterator::max_by_key` on a score: `none` on an empty list, otherwise
the element of maximal key, the last one on ties. -/
def max_by_key {α : Type} (key : α → Int) : List α → Option α
  | [] => none
  | c :: cs => some (cs.foldl (fun best x => if key best ≤ key x then x else best) c)

/-- Rich find result of the evolved locator (src/window.rs:36-41); the elapsed
time is not modelled. -/
structure WindowFound where
  hwnd : Int
  width : Int
  height : Int
deriving DecidableEq, Repr

/-- `find_best_window_by_process_name` (src/window.rs:114-136): highest-scoring
candidate, reported found only when its score is strictly positive. -/
def find_best_window_by_process_name (target : String) (ws : List EnumWindow) :
    Option WindowFound :=
  match max_by_key (fun c => c.score) (candidates_v1 target ws) with
  | none => none
  | some best =>
    if best.score > 0 then some { hwnd := best.hwnd, width := best.width, height := best.height }
    else none

/-- `find_window_by_process_name` of the earlier variant (src/main.rs:734-750):
highest-scoring candidate regardless of its score, `none` only when there is
no candidate at all. -/
def find_window_by_process_name_v0 (target : String) (ws : List EnumWindow) :
    Option Int :=
  (max_by_key (fun c => c.score) (candidates_v0 target ws)).map (fun c => c.hwnd)

/-- §8 scenario fixture: a visible tool window with a title (9 characters)
owned by a process whose image is `game.exe`; its rectangle is arbitrary. -/
def scenario_tool_window (toolRectOk : Bool) (toolRect : Rect) : EnumWindow :=
  ⟨1, true, 100, true, true, "C:\\Games\\Game.exe", true, toolRectOk, toolRect, 9⟩

/-- §8 scenario fixture: a visible 500×400 normal window with no title. -/
def scenario_plain_window : EnumWindow :=
  ⟨2, true, 101, true, true, "C:\\Games\\Game.exe", false, true, ⟨0, 0, 500, 400⟩, 0⟩

/-- §8 scenario fixture: a visible 1920×1080 normal window with a title. -/
def scenario_big_window : EnumWindow :=
  ⟨3, true, 102, true, true, "C:\\Games\\Game.exe", false, true, ⟨0, 0, 1920, 1080⟩, 12⟩

/-! ### Launch orchestration (src/app.rs, src/main.rs) -/

/-- `AppProfile` (src/models.rs; `target_audio_device_id` is the field the
evolved `launch_profile` additionally reads). -/
structure AppProfile where
  name : String
  exe_path : String
  target_monitor_name : String
  target_monitor_rect : Option Rect
  window_process_name : Option String
  force_primary : Bool
  persistent_monitor : Bool
  target_audio_device_id : Option String
deriving DecidableEq, Repr

/-- `find_monitor_rect` (src/app.rs:149-154, src/main.rs:132-137): exact
device-name lookup among the live monitors. -/
def find_monitor_rect (monitors : List MonitorInfo) (device_name : String) : Option Rect :=
  (monitors.find? (fun m => m.device_name == device_name)).map (fun m => m.rect)

/-- The target-rectangle resolution at the top of `launch_profile`
(src/app.rs:235-242, src/main.rs:149-156): the live monitor's rectangle when
the device name matches, otherwise the profile's cached fallback rectangle. -/
def resolve_target_rect (monitors : List MonitorInfo) (profile : AppProfile) : Option Rect :=
  (find_monitor_rect monitors profile.target_monitor_name).or profile.target_monitor_rect

/-- An observable event of the evolved `launch_profile`'s synchronous front
half: a status/log message, or a successful process spawn. -/
inductive AppEvent where
  | status (msg : String)
  | spawn (exe : String)
deriving DecidableEq, Repr

/-- The synchronous front half of the evolved `launch_profile`
(src/app.rs:224-266): resolve the target rectangle, abort with a status
message when unresolvable, otherwise attempt the spawn, reporting failure.
`spawnOutcome` models `Command::spawn`; the audio switch and window wait run
on a background thread after a successful spawn and are outside this model. -/
def launch_profile (monitors : List MonitorInfo) (profile : AppProfile)
    (spawnOutcome : Except String Nat) : List AppEvent :=
  match resolve_target_rect monitors profile with
  | none => [AppEvent.status ("❌ Monitor '" ++ profile.target_monitor_name ++ "' not found.")]
  | some _ =>
    match spawnOutcome with
    | Except.error e => [AppEvent.status ("❌ Failed to launch: " ++ e)]
    | Except.ok _ => [AppEvent.spawn profile.exe_path]

/-- An observable event of the earlier `launch_profile`'s force-primary path. -/
inductive LaunchEvent where
  | status (msg : String)
  | switchPrimary (device : String)
  | settleDelay (ms : Nat)
  | spawned (pid : Nat)
  | restoreLayout
deriving DecidableEq, Repr

/-- The force-primary branch of the earlier `launch_profile`
(src/main.rs:139-206): resolve the target rectangle; snapshot the layout;
report then attempt the primary switch, aborting on failure
(`switch_primary_to` returns `false` exactly when the device name is not among
the live monitors); settle 1.5 s; spawn — on spawn failure the failure status
is set and then the snapshot is restored.  The background wait-for-exit/restore
thread of a successful launch is outside this model. -/
def launch_profile_force_primary (monitors : List MonitorInfo) (profile : AppProfile)
    (spawnOutcome : Except String Nat) : List LaunchEvent :=
  match (find_monitor_rect monitors profile.target_monitor_name).or profile.target_monitor_rect with
  | none => [LaunchEvent.status ("❌ Monitor '" ++ profile.target_monitor_name ++ "' not found.")]
  | some _ =>
    LaunchEvent.status ("⏳ Switching primary to " ++ profile.target_monitor_name ++ "...") ::
    (match monitors.find? (fun m => m.device_name == profile.target_monitor_name) with
     | none => [LaunchEvent.status "❌ Failed to switch primary monitor."]
     | some _ =>
       [LaunchEvent.switchPrimary profile.target_monitor_name, LaunchEvent.settleDelay 1500] ++
       match spawnOutcome with
       | Except.error e =>
         [LaunchEvent.status ("❌ Failed to launch: " ++ e), LaunchEvent.restoreLayout]
       | Except.ok pid =>
         [LaunchEvent.spawned pid,
          LaunchEvent.status ("⏳ Game launched (PID " ++ toString pid ++ ") — will restore monitors on exit.")])

/-- `a` occurs strictly before `b` in the list `l`. -/
def eventBefore {α : Type} [DecidableEq α] (l : List α) (a b : α) : Prop :=
  ∃ i : Fin l.length, ∃ j : Fin l.length, i.1 < j.1 ∧ l.get i = a ∧ l.get j = b

instance eventBeforeDecidable {α : Type} [DecidableEq α] (l : List α) (a b : α) :
    Decidable (eventBefore l a b) :=
  decidable_of_iff
    (∃ i : Fin l.length, ∃ j : Fin l.length, i.1 < j.1 ∧ l.get i = a ∧ l.get j = b) Iff.rfl

/-! ### Visible-window listing (src/window.rs:418-489) -/

/-- One top-level window as `enum_visible_windows_callback` observes it. -/
structure VisWindow where
  hwnd : Int
  visible : Bool
  toolWindow : Bool
  titleLen : Nat
  title : String
  pid : Nat
  openOk : Bool
  queryOk : Bool
  fullPath : String
deriving DecidableEq, Repr

/-- `ProcessEntry` (src/window.rs:23-30). -/
structure ProcessEntry where
  hwnd : Int
  pid : Nat
  exe_path : Option String
  label : String
deriving DecidableEq, Repr

/-- `enum_visible_windows_callback` (src/window.rs:430-489): skip invisible,
tool and untitled windows; resolve the owning executable name, falling back to
`"PID <pid>"` when the process cannot be opened or queried; label the entry
`"<exe> — <title>"`. -/
def entry_of_window (w : VisWindow) : Option ProcessEntry :=
  if !w.visible then none
  else if w.toolWindow then none
  else if w.titleLen = 0 then none
  else
    let title := trimNullChars w.title
    let full := trimNullChars w.fullPath
    let exe_path := if w.openOk && w.queryOk && !(full == "") then some full else none
    let exe_name :=
      if w.openOk then
        if w.queryOk then String.mk ((splitPathChars full.data).getLast?.getD [])
        else "PID " ++ toString w.pid
      else "PID " ++ toString w.pid
    some { hwnd := w.hwnd, pid := w.pid, exe_path := exe_path,
           label := exe_name ++ " — " ++ title }

/-- Lexicographic comparison of character lists by code point — the order
Rust's byte-wise `str::cmp` induces on UTF-8 strings. -/
def lexLe : List Char → List Char → Bool
  | [], _ => true
  | _ :: _, [] => false
  | a :: as, b :: bs => if a < b then true else if b < a then false else lexLe as bs

/-- The `sort_by(|a, b| a.label.cmp(&b.label))` comparison. -/
def label_le (a b : ProcessEntry) : Bool :=
  lexLe a.label.data b.label.data

/-- `list_visible_windows` (src/window.rs:418-428): collect the entries of all
qualifying windows, then sort ascending by label.  Rust's `sort_by` is a
stable sort; a stable sort of a list under a total preorder is unique, so the
insertion sort used here returns exactly the list the source's sort does. -/
def list_visible_windows (ws : List VisWindow) : List ProcessEntry :=
  (ws.filterMap entry_of_window).insertionSort (fun a b => label_le a b = true)

/-! ### Display-state lemmas -/

theorem isSome_false_eq_none {α : Type} {o : Option α} (h : o.isSome = false) : o = none := by
  cases o <;> simp_all

theorem applyPositionChange_modes_ne (st : DisplayState) (device : String) (x y : Int)
    (b : Bool) (n : String) (hn : n ≠ device) :
    (applyPositionChange st device x y b).modes n = st.modes n := by
  cases h : st.modes device <;> simp [applyPositionChange, h, hn]

theorem applyPositionChange_modes_self (st : DisplayState) (device : String) (x y : Int)
    (b : Bool) (r : Rect) (h : st.modes device = some r) :
    (applyPositionChange st device x y b).modes device =
      some { left := x, top := y,
             right := x + (r.right - r.left), bottom := y + (r.bottom - r.top) } := by
  simp [applyPositionChange, h]

theorem applyPositionChange_of_none (st : DisplayState) (device : String) (x y : Int)
    (b : Bool) (h : st.modes device = none) :
    applyPositionChange st device x y b = st := by
  simp [applyPositionChange, h]

theorem applyPositionChange_modes_isSome (st : DisplayState) (device : String) (x y : Int)
    (b : Bool) (n : String) :
    ((applyPositionChange st device x y b).modes n).isSome = (st.modes n).isSome := by
  cases h : st.modes device
  · simp [applyPositionChange, h]
  · by_cases hn : n = device
    · subst hn; simp [applyPositionChange, h]
    · simp [applyPositionChange, h, hn]

theorem applyPositionChange_primary (st : DisplayState) (device : String) (x y : Int)
    (b : Bool) :
    (applyPositionChange st device x y b).primary =
      if (st.modes device).isSome && b then some device else st.primary := by
  cases h : st.modes device <;> cases b <;> simp [applyPositionChange, h]

theorem applyAll_cons {α : Type} (key : α → String) (fx fy : α → Int) (fb : α → Bool)
    (a : α) (l : List α) (st : DisplayState) :
    applyAll key fx fy fb (a :: l) st =
      applyAll key fx fy fb l (applyPositionChange st (key a) (fx a) (fy a) (fb a)) := rfl

theorem applyAll_append {α : Type} (key : α → String) (fx fy : α → Int) (fb : α → Bool)
    (l₁ l₂ : List α) (st : DisplayState) :
    applyAll key fx fy fb (l₁ ++ l₂) st =
      applyAll key fx fy fb l₂ (applyAll key fx fy fb l₁ st) := by
  simp [applyAll, List.foldl_append]

theorem applyAll_modes_isSome {α : Type} (key : α → String) (fx fy : α → Int)
    (fb : α → Bool) (n : String) :
    ∀ (l : List α) (st : DisplayState),
      ((applyAll key fx fy fb l st).modes n).isSome = (st.modes n).isSome := by
  intro l
  induction l with
  | nil => intro st; rfl
  | cons a l ih =>
    intro st
    rw [applyAll_cons, ih, applyPositionChange_modes_isSome]

theorem applyAll_modes_of_forall_ne {α : Type} (key : α → String) (fx fy : α → Int)
    (fb : α → Bool) (n : String) :
    ∀ (l : List α) (st : DisplayState), (∀ a ∈ l, key a ≠ n) →
      (applyAll key fx fy fb l st).modes n = st.modes n := by
  intro l
  induction l with
  | nil => intro st _; rfl
  | cons a l ih =>
    intro st h
    have h1 := ih (applyPositionChange st (key a) (fx a) (fy a) (fb a))
      (fun b hb => h b (List.mem_cons_of_mem _ hb))
    rw [applyAll_cons, h1]
    exact applyPositionChange_modes_ne _ _ _ _ _ _ (Ne.symm (h a (List.mem_cons_self a l)))

theorem applyAll_modes_of_mem {α : Type} (key : α → String) (fx fy : α → Int)
    (fb : α → Bool) :
    ∀ (l : List α) (st : DisplayState) (a : α), (l.map key).Nodup → a ∈ l →
      (applyAll key fx fy fb l st).modes (key a) =
        (st.modes (key a)).map (fun r =>
          { left := fx a, top := fy a,
            right := fx a + (r.right - r.left), bottom := fy a + (r.bottom - r.top) }) := by
  intro l
  induction l with
  | nil => intro st a _ ha; cases ha
  | cons b l ih =>
    intro st a hnd ha
    rw [List.map_cons, List.nodup_cons] at hnd
    rcases List.mem_cons.mp ha with rfl | ha'
    · rw [applyAll_cons]
      have hne : ∀ c ∈ l, key c ≠ key a := by
        intro c hc hkey
        exact hnd.1 (by rw [← hkey]; exact List.mem_map_of_mem key hc)
      rw [applyAll_modes_of_forall_ne key fx fy fb (key a) l _ hne]
      cases h : st.modes (key a) with
      | none => rw [applyPositionChange_of_none _ _ _ _ _ h, h]; rfl
      | some r => rw [applyPositionChange_modes_self _ _ _ _ _ r h]; rfl
    · have hba : key b ≠ key a := by
        intro hkey
        exact hnd.1 (by rw [hkey]; exact List.mem_map_of_mem key ha')
      rw [applyAll_cons, ih _ a hnd.2 ha',
        applyPositionChange_modes_ne _ _ _ _ _ _ (Ne.symm hba)]

theorem applyAll_primary_of_none {α : Type} (key : α → String) (fx fy : α → Int)
    (fb : α → Bool) :
    ∀ (l : List α) (st : DisplayState),
      (∀ a ∈ l, fb a = true → st.modes (key a) = none) →
      (applyAll key fx fy fb l st).primary = st.primary := by
  intro l
  induction l with
  | nil => intro st _; rfl
  | cons a l ih =>
    intro st h
    have hstep : (applyPositionChange st (key a) (fx a) (fy a) (fb a)).primary = st.primary := by
      rw [applyPositionChange_primary]
      cases hfb : fb a with
      | false => simp
      | true => rw [h a (List.mem_cons_self a l) hfb]; simp
    have htail : ∀ b ∈ l, fb b = true →
        (applyPositionChange st (key a) (fx a) (fy a) (fb a)).modes (key b) = none := by
      intro b hb hfb
      apply isSome_false_eq_none
      rw [applyPositionChange_modes_isSome, h b (List.mem_cons_of_mem _ hb) hfb]
      rfl
    rw [applyAll_cons, ih _ htail, hstep]

theorem applyAll_primary_of_set {α : Type} (key : α → String) (fx fy : α → Int)
    (fb : α → Bool) (l₁ : List α) (a : α) (l₂ : List α) (st : DisplayState)
    (hfb : fb a = true) (hsome : (st.modes (key a)).isSome = true)
    (hl₂ : ∀ b ∈ l₂, fb b = true → st.modes (key b) = none) :
    (applyAll key fx fy fb (l₁ ++ a :: l₂) st).primary = some (key a) := by
  rw [applyAll_append, applyAll_cons]
  have hsome₁ : ((applyAll key fx fy fb l₁ st).modes (key a)).isSome = true := by
    rw [applyAll_modes_isSome]; exact hsome
  have hstep : (applyPositionChange (applyAll key fx fy fb l₁ st) (key a) (fx a) (fy a)
      (fb a)).primary = some (key a) := by
    rw [applyPositionChange_primary, hsome₁, hfb]; rfl
  have htail : ∀ b ∈ l₂, fb b = true →
      (applyPositionChange (applyAll key fx fy fb l₁ st) (key a) (fx a) (fy a)
        (fb a)).modes (key b) = none := by
    intro b hb hfb'
    apply isSome_false_eq_none
    rw [applyPositionChange_modes_isSome, applyAll_modes_isSome, hl₂ b hb hfb']
    rfl
  rw [applyAll_primary_of_none _ _ _ _ _ _ htail, hstep]

theorem find?_device_name_of_nodup (ms : List MonitorInfo) (m : MonitorInfo)
    (hnd : (ms.map (fun x => x.device_name)).Nodup) (hm : m ∈ ms) :
    ms.find? (fun x => x.device_name == m.device_name) = some m := by
  induction ms with
  | nil => cases hm
  | cons b ms ih =>
    rw [List.map_cons, List.nodup_cons] at hnd
    rcases List.mem_cons.mp hm with rfl | hm'
    · exact List.find?_cons_of_pos _ (by simp)
    · have hne : b.device_name ≠ m.device_name := by
        intro he
        exact hnd.1 (by rw [he]; exact List.mem_map_of_mem _ hm')
      rw [List.find?_cons_of_neg _ (by simp [hne]), ih hnd.2 hm']

theorem filter_eq_singleton_split {α : Type} (p : α → Bool) :
    ∀ (l : List α) (a : α), l.filter p = [a] →
      ∃ l₁ l₂, l = l₁ ++ a :: l₂ ∧ (∀ x ∈ l₁, p x = false) ∧ (∀ x ∈ l₂, p x = false) := by
  intro l
  induction l with
  | nil => intro a h; simp at h
  | cons b l ih =>
    intro a h
    cases hb : p b with
    | true =>
      rw [List.filter_cons_of_pos hb] at h
      have hba : b = a ∧ l.filter p = [] := by
        constructor
        · exact (List.cons_eq_cons.mp h).1
        · exact (List.cons_eq_cons.mp h).2
      refine ⟨[], l, ?_, ?_, ?_⟩
      · rw [hba.1]; rfl
      · intro x hx; cases hx
      · intro x hx
        have := List.filter_eq_nil_iff.mp hba.2 x hx
        simpa using this
    | false =>
      rw [List.filter_cons_of_neg (by simp [hb])] at h
      obtain ⟨l₁, l₂, rfl, h₁, h₂⟩ := ih a h
      refine ⟨b :: l₁, l₂, rfl, ?_, h₂⟩
      intro x hx
      rcases List.mem_cons.mp hx with rfl | hx'
      · exact hb
      · exact h₁ x hx'

theorem switch_primary_to_of_find_none (t : String) (ms : List MonitorInfo)
    (st : DisplayState) (h : ms.find? (fun m => m.device_name == t) = none) :
    switch_primary_to t ms st = (false, st) := by
  simp [switch_primary_to, h]

theorem switch_primary_to_of_find_some (t : String) (ms : List MonitorInfo)
    (st : DisplayState) (tgt : MonitorInfo)
    (h : ms.find? (fun m => m.device_name == t) = some tgt) :
    switch_primary_to t ms st = (true, applyAll (fun m => m.device_name)
      (fun m => m.rect.left - tgt.rect.left) (fun m => m.rect.top - tgt.rect.top)
      (fun m => m.device_name == t) ms st) := by
  simp [switch_primary_to, h, applyAll]

theorem restore_snapshotOf_eq (ms : List MonitorInfo) (st : DisplayState) :
    restore_monitor_layout (snapshotOf ms) st = applyAll (fun m : MonitorInfo => m.device_name)
      (fun m => m.rect.left) (fun m => m.rect.top)
      (fun m => m.rect.left == 0 && m.rect.top == 0) ms st := by
  simp [restore_monitor_layout, applyAll, snapshotOf, List.foldl_map]

theorem stateOf_modes_of_mem (ms : List MonitorInfo) (p₀ : Option String) (m : MonitorInfo)
    (hnd : (ms.map (fun x => x.device_name)).Nodup) (hm : m ∈ ms) :
    (stateOf ms p₀).modes m.device_name = some m.rect := by
  simp [stateOf, find?_device_name_of_nodup ms m hnd hm]

theorem rect_eq_iff (r s : Rect) :
    r = s ↔ r.left = s.left ∧ r.top = s.top ∧ r.right = s.right ∧ r.bottom = s.bottom := by
  constructor
  · intro h; rw [h]; exact ⟨rfl, rfl, rfl, rfl⟩
  · intro h; cases r; cases s; simp_all

/-! ### Claim C1: switch followed by restore is a round trip -/

/-- **C1.** For every monitor list with distinct device names in which exactly
one monitor's rectangle has its top-left at the origin `(0,0)` (the primary),
performing `switch_primary_to target` and then `restore_monitor_layout` on a
snapshot of the original rectangles restores every device's mode to its
original rectangle and re-marks as primary the monitor whose snapshotted
top-left was the origin. -/
theorem switch_restore_round_trip
    (ms : List MonitorInfo) (p₀ : Option String) (target : String) (d₀ : MonitorInfo)
    (hnd : (ms.map (fun m => m.device_name)).Nodup)
    (horigin : ms.filter (fun m => m.rect.left == 0 && m.rect.top == 0) = [d₀]) :
    (∀ n, (restore_monitor_layout (snapshotOf ms)
        ((switch_primary_to target ms (stateOf ms p₀)).2)).modes n = (stateOf ms p₀).modes n)
    ∧ (restore_monitor_layout (snapshotOf ms)
        ((switch_primary_to target ms (stateOf ms p₀)).2)).primary = some d₀.device_name := by
  have hd₀filter : d₀ ∈ ms.filter (fun m => m.rect.left == 0 && m.rect.top == 0) := by
    rw [horigin]; exact List.mem_cons_self _ _
  have hd₀mem : d₀ ∈ ms := List.mem_of_mem_filter hd₀filter
  have hd₀p : (d₀.rect.left == 0 && d₀.rect.top == 0) = true :=
    (List.mem_filter.mp hd₀filter).2
  constructor
  · intro n
    rw [restore_snapshotOf_eq]
    cases hn : ms.find? (fun m => m.device_name == n) with
    | none =>
      have hne : ∀ m ∈ ms, (fun m : MonitorInfo => m.device_name) m ≠ n := by
        intro m hm
        have := List.find?_eq_none.mp hn m hm
        simpa using this
      rw [applyAll_modes_of_forall_ne _ _ _ _ n ms _ hne]
      cases hf : ms.find? (fun m => m.device_name == target) with
      | none => rw [switch_primary_to_of_find_none _ _ _ hf]
      | some tgt =>
        rw [switch_primary_to_of_find_some _ _ _ _ hf]
        exact applyAll_modes_of_forall_ne _ _ _ _ n ms _ hne
    | some m =>
      have hmem := List.mem_of_find?_eq_some hn
      have hmn : m.device_name = n := by
        have := List.find?_some hn
        simpa using this
      subst hmn
      rw [applyAll_modes_of_mem _ _ _ _ ms _ m hnd hmem]
      have hst₀ : (stateOf ms p₀).modes m.device_name = some m.rect :=
        stateOf_modes_of_mem ms p₀ m hnd hmem
      cases hf : ms.find? (fun x => x.device_name == target) with
      | none =>
        rw [switch_primary_to_of_find_none _ _ _ hf]
        show Option.map _ ((stateOf ms p₀).modes m.device_name) = _
        rw [hst₀]
        simp only [Option.map_some', Option.some.injEq, rect_eq_iff, hst₀]
        exact ⟨trivial, trivial, by omega, by omega⟩
      | some tgt =>
        rw [switch_primary_to_of_find_some _ _ _ _ hf]
        rw [applyAll_modes_of_mem _ _ _ _ ms _ m hnd hmem, hst₀]
        simp only [Option.map_some', Option.some.injEq, rect_eq_iff, hst₀]
        exact ⟨trivial, trivial, by omega, by omega⟩
  · rw [restore_snapshotOf_eq]
    have hsome₁ : (((switch_primary_to target ms (stateOf ms p₀)).2).modes
        d₀.device_name).isSome = true := by
      have h₀ : ((stateOf ms p₀).modes d₀.device_name).isSome = true := by
        rw [stateOf_modes_of_mem ms p₀ d₀ hnd hd₀mem]; rfl
      cases hf : ms.find? (fun m => m.device_name == target) with
      | none => rw [switch_primary_to_of_find_none _ _ _ hf]; exact h₀
      | some tgt =>
        rw [switch_primary_to_of_find_some _ _ _ _ hf]
        rw [applyAll_modes_isSome]
        exact h₀
    obtain ⟨l₁, l₂, hms, h₁, h₂⟩ :=
      filter_eq_singleton_split (fun m : MonitorInfo => m.rect.left == 0 && m.rect.top == 0)
        ms d₀ horigin
    subst hms
    exact applyAll_primary_of_set _ _ _ _ l₁ d₀ l₂ _ hd₀p hsome₁
      (by intro b hb hfb; rw [h₂ b hb] at hfb; cases hfb)

/-- Witness for C1 at the §8 two-monitor layout. -/
theorem switch_restore_round_trip_witness :
    (([⟨"\\\\.\\DISPLAY1", ⟨0, 0, 1920, 1080⟩⟩,
       ⟨"\\\\.\\DISPLAY2", ⟨1920, 0, 3840, 1080⟩⟩] : List MonitorInfo).map
        (fun m => m.device_name)).Nodup
    ∧ ([⟨"\\\\.\\DISPLAY1", ⟨0, 0, 1920, 1080⟩⟩,
        ⟨"\\\\.\\DISPLAY2", ⟨1920, 0, 3840, 1080⟩⟩] : List MonitorInfo).filter
        (fun m => m.rect.left == 0 && m.rect.top == 0) =
        [⟨"\\\\.\\DISPLAY1", ⟨0, 0, 1920, 1080⟩⟩]
    ∧ ((∀ n, (restore_monitor_layout
          (snapshotOf [⟨"\\\\.\\DISPLAY1", ⟨0, 0, 1920, 1080⟩⟩,
            ⟨"\\\\.\\DISPLAY2", ⟨1920, 0, 3840, 1080⟩⟩])
          ((switch_primary_to "\\\\.\\DISPLAY2"
            [⟨"\\\\.\\DISPLAY1", ⟨0, 0, 1920, 1080⟩⟩,
             ⟨"\\\\.\\DISPLAY2", ⟨1920, 0, 3840, 1080⟩⟩]
            (stateOf [⟨"\\\\.\\DISPLAY1", ⟨0, 0, 1920, 1080⟩⟩,
              ⟨"\\\\.\\DISPLAY2", ⟨1920, 0, 3840, 1080⟩⟩] (some "\\\\.\\DISPLAY1"))).2)).modes n =
          (stateOf [⟨"\\\\.\\DISPLAY1", ⟨0, 0, 1920, 1080⟩⟩,
            ⟨"\\\\.\\DISPLAY2", ⟨1920, 0, 3840, 1080⟩⟩] (some "\\\\.\\DISPLAY1")).modes n)
        ∧ (restore_monitor_layout
          (snapshotOf [⟨"\\\\.\\DISPLAY1", ⟨0, 0, 1920, 1080⟩⟩,
            ⟨"\\\\.\\DISPLAY2", ⟨1920, 0, 3840, 1080⟩⟩])
          ((switch_primary_to "\\\\.\\DISPLAY2"
            [⟨"\\\\.\\DISPLAY1", ⟨0, 0, 1920, 1080⟩⟩,
             ⟨"\\\\.\\DISPLAY2", ⟨1920, 0, 3840, 1080⟩⟩]
            (stateOf [⟨"\\\\.\\DISPLAY1", ⟨0, 0, 1920, 1080⟩⟩,
              ⟨"\\\\.\\DISPLAY2", ⟨1920, 0, 3840, 1080⟩⟩] (some "\\\\.\\DISPLAY1"))).2)).primary =
          some "\\\\.\\DISPLAY1") :=
  ⟨by decide, by decide,
    switch_restore_round_trip
      [⟨"\\\\.\\DISPLAY1", ⟨0, 0, 1920, 1080⟩⟩, ⟨"\\\\.\\DISPLAY2", ⟨1920, 0, 3840, 1080⟩⟩]
      (some "\\\\.\\DISPLAY1") "\\\\.\\DISPLAY2" ⟨"\\\\.\\DISPLAY1", ⟨0, 0, 1920, 1080⟩⟩
      (by decide) (by decide)⟩

/-! ### Claim C2: what a primary switch does -/

/-- **C2.** For every monitor list (distinct device names) containing the named
target device, `switch_primary_to` reports success, repositions each monitor's
mode to `(left − target.left, top − target.top)` keeping its size — so the
target lands at `(0,0)` — and marks exactly the target device as primary. -/
theorem switch_primary_to_repositions
    (ms : List MonitorInfo) (p₀ : Option String) (target : String) (tgt : MonitorInfo)
    (hnd : (ms.map (fun m => m.device_name)).Nodup)
    (htgt : tgt ∈ ms) (hname : tgt.device_name = target) :
    (switch_primary_to target ms (stateOf ms p₀)).1 = true
    ∧ (∀ m ∈ ms, (switch_primary_to target ms (stateOf ms p₀)).2.modes m.device_name =
        some { left := m.rect.left - tgt.rect.left, top := m.rect.top - tgt.rect.top,
               right := m.rect.left - tgt.rect.left + (m.rect.right - m.rect.left),
               bottom := m.rect.top - tgt.rect.top + (m.rect.bottom - m.rect.top) })
    ∧ (switch_primary_to target ms (stateOf ms p₀)).2.primary = some tgt.device_name := by
  have hf : ms.find? (fun m => m.device_name == target) = some tgt := by
    have h := find?_device_name_of_nodup ms tgt hnd htgt
    rw [hname] at h
    exact h
  rw [switch_primary_to_of_find_some _ _ _ _ hf]
  refine ⟨rfl, ?_, ?_⟩
  · intro m hm
    rw [applyAll_modes_of_mem _ _ _ _ ms _ m hnd hm, stateOf_modes_of_mem ms p₀ m hnd hm]
    rfl
  · obtain ⟨l₁, l₂, hms⟩ := List.append_of_mem htgt
    subst hms
    have hnames : ((l₁ ++ tgt :: l₂).map (fun m => m.device_name)).Nodup := hnd
    rw [List.map_append, List.map_cons] at hnames
    have hnotin : tgt.device_name ∉ l₂.map (fun m => m.device_name) :=
      (List.nodup_cons.mp (List.nodup_append.mp hnames).2.1).1
    exact applyAll_primary_of_set _ _ _ _ l₁ tgt l₂ _ (by simp [hname])
      (by rw [stateOf_modes_of_mem _ p₀ tgt hnd htgt]; rfl)
      (by
        intro b hb hfb
        exfalso
        apply hnotin
        have hb' : b.device_name = target := by simpa using hfb
        rw [hname, ← hb']
        exact List.mem_map_of_mem _ hb)

/-- Witness for C2: the §8 scenario — switching primary to DISPLAY2 puts
DISPLAY2 at `(0,0)-(1920,1080)` marked primary and DISPLAY1 at
`(-1920,0)-(0,1080)`. -/
theorem switch_primary_to_repositions_witness :
    (([⟨"\\\\.\\DISPLAY1", ⟨0, 0, 1920, 1080⟩⟩,
       ⟨"\\\\.\\DISPLAY2", ⟨1920, 0, 3840, 1080⟩⟩] : List MonitorInfo).map
        (fun m => m.device_name)).Nodup
    ∧ (⟨"\\\\.\\DISPLAY2", ⟨1920, 0, 3840, 1080⟩⟩ : MonitorInfo) ∈
        ([⟨"\\\\.\\DISPLAY1", ⟨0, 0, 1920, 1080⟩⟩,
          ⟨"\\\\.\\DISPLAY2", ⟨1920, 0, 3840, 1080⟩⟩] : List MonitorInfo)
    ∧ (switch_primary_to "\\\\.\\DISPLAY2"
        [⟨"\\\\.\\DISPLAY1", ⟨0, 0, 1920, 1080⟩⟩, ⟨"\\\\.\\DISPLAY2", ⟨1920, 0, 3840, 1080⟩⟩]
        (stateOf [⟨"\\\\.\\DISPLAY1", ⟨0, 0, 1920, 1080⟩⟩,
          ⟨"\\\\.\\DISPLAY2", ⟨1920, 0, 3840, 1080⟩⟩] (some "\\\\.\\DISPLAY1"))).1 = true
    ∧ (switch_primary_to "\\\\.\\DISPLAY2"
        [⟨"\\\\.\\DISPLAY1", ⟨0, 0, 1920, 1080⟩⟩, ⟨"\\\\.\\DISPLAY2", ⟨1920, 0, 3840, 1080⟩⟩]
        (stateOf [⟨"\\\\.\\DISPLAY1", ⟨0, 0, 1920, 1080⟩⟩,
          ⟨"\\\\.\\DISPLAY2", ⟨1920, 0, 3840, 1080⟩⟩] (some "\\\\.\\DISPLAY1"))).2.modes
        "\\\\.\\DISPLAY2" = some ⟨0, 0, 1920, 1080⟩
    ∧ (switch_primary_to "\\\\.\\DISPLAY2"
        [⟨"\\\\.\\DISPLAY1", ⟨0, 0, 1920, 1080⟩⟩, ⟨"\\\\.\\DISPLAY2", ⟨1920, 0, 3840, 1080⟩⟩]
        (stateOf [⟨"\\\\.\\DISPLAY1", ⟨0, 0, 1920, 1080⟩⟩,
          ⟨"\\\\.\\DISPLAY2", ⟨1920, 0, 3840, 1080⟩⟩] (some "\\\\.\\DISPLAY1"))).2.modes
        "\\\\.\\DISPLAY1" = some ⟨-1920, 0, 0, 1080⟩
    ∧ (switch_primary_to "\\\\.\\DISPLAY2"
        [⟨"\\\\.\\DISPLAY1", ⟨0, 0, 1920, 1080⟩⟩, ⟨"\\\\.\\DISPLAY2", ⟨1920, 0, 3840, 1080⟩⟩]
        (stateOf [⟨"\\\\.\\DISPLAY1", ⟨0, 0, 1920, 1080⟩⟩,
          ⟨"\\\\.\\DISPLAY2", ⟨1920, 0, 3840, 1080⟩⟩] (some "\\\\.\\DISPLAY1"))).2.primary =
        some "\\\\.\\DISPLAY2" := by
  have h := switch_primary_to_repositions
    [⟨"\\\\.\\DISPLAY1", ⟨0, 0, 1920, 1080⟩⟩, ⟨"\\\\.\\DISPLAY2", ⟨1920, 0, 3840, 1080⟩⟩]
    (some "\\\\.\\DISPLAY1") "\\\\.\\DISPLAY2" ⟨"\\\\.\\DISPLAY2", ⟨1920, 0, 3840, 1080⟩⟩
    (by decide) (by decide) rfl
  refine ⟨by decide, by decide, h.1, ?_, ?_, h.2.2⟩
  · have h2 := h.2.1 ⟨"\\\\.\\DISPLAY2", ⟨1920, 0, 3840, 1080⟩⟩ (by decide)
    rw [h2]; decide
  · have h1 := h.2.1 ⟨"\\\\.\\DISPLAY1", ⟨0, 0, 1920, 1080⟩⟩ (by decide)
    rw [h1]; decide

/-! ### Claim C3: the one-shot move -/

/-- **C3.** For every existing window, `move_window_once` first reads the
placement, rewrites the stored normal rectangle to a three-quarter-size
rectangle of the target centred in it (hence contained in the target), applies
it with `SW_RESTORE`, moves the window directly onto the target rectangle, and
re-issues `SW_MAXIMIZE` if and only if the placement was maximized
beforehand — so a window maximized before the move ends maximized on the new
monitor. -/
theorem move_window_once_spec (placement : WindowPlacement) (target_rect : Rect)
    (hw : target_rect.left ≤ target_rect.right) (hh : target_rect.top ≤ target_rect.bottom) :
    ∃ rc : Rect,
      move_window_once true placement target_rect =
        [WinCall.isWindow true, WinCall.getPlacement, WinCall.setPlacement SW_RESTORE rc,
         WinCall.setWindowPos target_rect.left target_rect.top
           (target_rect.right - target_rect.left) (target_rect.bottom - target_rect.top)]
        ++ (if placement.showCmd = SW_MAXIMIZE ∨ placement.showCmd = SW_SHOWMAXIMIZED
            then [WinCall.showWindow SW_MAXIMIZE] else [])
        ++ [WinCall.bringToTop, WinCall.setForeground]
      ∧ target_rect.left ≤ rc.left ∧ target_rect.top ≤ rc.top
      ∧ rc.right ≤ target_rect.right ∧ rc.bottom ≤ target_rect.bottom
      ∧ rc.right - rc.left = Int.tdiv ((target_rect.right - target_rect.left) * 3) 4
      ∧ rc.bottom - rc.top = Int.tdiv ((target_rect.bottom - target_rect.top) * 3) 4
      ∧ 0 ≤ (target_rect.right - rc.right) - (rc.left - target_rect.left)
      ∧ (target_rect.right - rc.right) - (rc.left - target_rect.left) ≤ 1
      ∧ 0 ≤ (target_rect.bottom - rc.bottom) - (rc.top - target_rect.top)
      ∧ (target_rect.bottom - rc.bottom) - (rc.top - target_rect.top) ≤ 1
      ∧ (WinCall.showWindow SW_MAXIMIZE ∈ move_window_once true placement target_rect
          ↔ (placement.showCmd = SW_MAXIMIZE ∨ placement.showCmd = SW_SHOWMAXIMIZED)) := by
  set w := target_rect.right - target_rect.left with hwdef
  set h := target_rect.bottom - target_rect.top with hhdef
  have hw0 : 0 ≤ w := by omega
  have hh0 : 0 ≤ h := by omega
  have e1 : Int.tdiv (w * 3) 4 = (w * 3) / 4 := Int.tdiv_eq_ediv (by omega) (by omega)
  have e2 : Int.tdiv (h * 3) 4 = (h * 3) / 4 := Int.tdiv_eq_ediv (by omega) (by omega)
  have b1 : 0 ≤ Int.tdiv (w * 3) 4 ∧ Int.tdiv (w * 3) 4 ≤ w := by
    constructor <;> rw [e1] <;> omega
  have b2 : 0 ≤ Int.tdiv (h * 3) 4 ∧ Int.tdiv (h * 3) 4 ≤ h := by
    constructor <;> rw [e2] <;> omega
  have e3 : Int.tdiv (w - Int.tdiv (w * 3) 4) 2 = (w - Int.tdiv (w * 3) 4) / 2 :=
    Int.tdiv_eq_ediv (by omega) (by omega)
  have e4 : Int.tdiv (h - Int.tdiv (h * 3) 4) 2 = (h - Int.tdiv (h * 3) 4) / 2 :=
    Int.tdiv_eq_ediv (by omega) (by omega)
  have b3 : 0 ≤ Int.tdiv (w - Int.tdiv (w * 3) 4) 2
      ∧ 2 * Int.tdiv (w - Int.tdiv (w * 3) 4) 2 ≤ w - Int.tdiv (w * 3) 4
      ∧ w - Int.tdiv (w * 3) 4 ≤ 2 * Int.tdiv (w - Int.tdiv (w * 3) 4) 2 + 1 := by
    refine ⟨?_, ?_, ?_⟩ <;> rw [e3] <;> omega
  have b4 : 0 ≤ Int.tdiv (h - Int.tdiv (h * 3) 4) 2
      ∧ 2 * Int.tdiv (h - Int.tdiv (h * 3) 4) 2 ≤ h - Int.tdiv (h * 3) 4
      ∧ h - Int.tdiv (h * 3) 4 ≤ 2 * Int.tdiv (h - Int.tdiv (h * 3) 4) 2 + 1 := by
    refine ⟨?_, ?_, ?_⟩ <;> rw [e4] <;> omega
  refine ⟨{ left := target_rect.left + Int.tdiv (w - Int.tdiv (w * 3) 4) 2,
            top := target_rect.top + Int.tdiv (h - Int.tdiv (h * 3) 4) 2,
            right := target_rect.left + Int.tdiv (w - Int.tdiv (w * 3) 4) 2 + Int.tdiv (w * 3) 4,
            bottom := target_rect.top + Int.tdiv (h - Int.tdiv (h * 3) 4) 2 + Int.tdiv (h * 3) 4 },
          ?_, ?_, ?_, ?_, ?_, ?_, ?_, ?_, ?_, ?_, ?_, ?_⟩
  · by_cases hmax : placement.showCmd = SW_MAXIMIZE ∨ placement.showCmd = SW_SHOWMAXIMIZED
    · have hb : (placement.showCmd == SW_MAXIMIZE || placement.showCmd == SW_SHOWMAXIMIZED) = true := by
        rcases hmax with hmax | hmax <;> simp [hmax]
      simp [move_window_once, hb, hmax]
    · have hb : (placement.showCmd == SW_MAXIMIZE || placement.showCmd == SW_SHOWMAXIMIZED) = false := by
        push_neg at hmax
        simp [hmax.1, hmax.2]
      simp [move_window_once, hb, hmax]
  · simp only []; omega
  · simp only []; omega
  · simp only []; omega
  · simp only []; omega
  · simp only []; omega
  · simp only []; omega
  · simp only []; omega
  · simp only []; omega
  · simp only []; omega
  · simp only []; omega
  · by_cases hmax : placement.showCmd = SW_MAXIMIZE ∨ placement.showCmd = SW_SHOWMAXIMIZED
    · have hb : (placement.showCmd == SW_MAXIMIZE || placement.showCmd == SW_SHOWMAXIMIZED) = true := by
        rcases hmax with hmax | hmax <;> simp [hmax]
      simp [move_window_once, hb, hmax]
    · have hb : (placement.showCmd == SW_MAXIMIZE || placement.showCmd == SW_SHOWMAXIMIZED) = false := by
        push_neg at hmax
        simp [hmax.1, hmax.2]
      simp [move_window_once, hb, hmax, corrective_calls, SW_MAXIMIZE, SW_RESTORE]

/-- Witness for C3: a maximized window moved onto a 1920×1080 monitor. -/
theorem move_window_once_spec_witness :
    (⟨0, 0, 1920, 1080⟩ : Rect).left ≤ (⟨0, 0, 1920, 1080⟩ : Rect).right
    ∧ (⟨0, 0, 1920, 1080⟩ : Rect).top ≤ (⟨0, 0, 1920, 1080⟩ : Rect).bottom
    ∧ ∃ rc : Rect,
      move_window_once true ⟨3, ⟨0, 0, 10, 10⟩⟩ (⟨0, 0, 1920, 1080⟩ : Rect) =
        [WinCall.isWindow true, WinCall.getPlacement, WinCall.setPlacement SW_RESTORE rc,
         WinCall.setWindowPos (⟨0, 0, 1920, 1080⟩ : Rect).left (⟨0, 0, 1920, 1080⟩ : Rect).top
           ((⟨0, 0, 1920, 1080⟩ : Rect).right - (⟨0, 0, 1920, 1080⟩ : Rect).left)
           ((⟨0, 0, 1920, 1080⟩ : Rect).bottom - (⟨0, 0, 1920, 1080⟩ : Rect).top)]
        ++ (if (⟨3, ⟨0, 0, 10, 10⟩⟩ : WindowPlacement).showCmd = SW_MAXIMIZE
              ∨ (⟨3, ⟨0, 0, 10, 10⟩⟩ : WindowPlacement).showCmd = SW_SHOWMAXIMIZED
            then [WinCall.showWindow SW_MAXIMIZE] else [])
        ++ [WinCall.bringToTop, WinCall.setForeground]
      ∧ (⟨0, 0, 1920, 1080⟩ : Rect).left ≤ rc.left ∧ (⟨0, 0, 1920, 1080⟩ : Rect).top ≤ rc.top
      ∧ rc.right ≤ (⟨0, 0, 1920, 1080⟩ : Rect).right
      ∧ rc.bottom ≤ (⟨0, 0, 1920, 1080⟩ : Rect).bottom
      ∧ rc.right - rc.left =
          Int.tdiv (((⟨0, 0, 1920, 1080⟩ : Rect).right - (⟨0, 0, 1920, 1080⟩ : Rect).left) * 3) 4
      ∧ rc.bottom - rc.top =
          Int.tdiv (((⟨0, 0, 1920, 1080⟩ : Rect).bottom - (⟨0, 0, 1920, 1080⟩ : Rect).top) * 3) 4
      ∧ 0 ≤ ((⟨0, 0, 1920, 1080⟩ : Rect).right - rc.right) - (rc.left - (⟨0, 0, 1920, 1080⟩ : Rect).left)
      ∧ ((⟨0, 0, 1920, 1080⟩ : Rect).right - rc.right) - (rc.left - (⟨0, 0, 1920, 1080⟩ : Rect).left) ≤ 1
      ∧ 0 ≤ ((⟨0, 0, 1920, 1080⟩ : Rect).bottom - rc.bottom) - (rc.top - (⟨0, 0, 1920, 1080⟩ : Rect).top)
      ∧ ((⟨0, 0, 1920, 1080⟩ : Rect).bottom - rc.bottom) - (rc.top - (⟨0, 0, 1920, 1080⟩ : Rect).top) ≤ 1
      ∧ (WinCall.showWindow SW_MAXIMIZE ∈ move_window_once true ⟨3, ⟨0, 0, 10, 10⟩⟩
            (⟨0, 0, 1920, 1080⟩ : Rect)
          ↔ ((⟨3, ⟨0, 0, 10, 10⟩⟩ : WindowPlacement).showCmd = SW_MAXIMIZE
              ∨ (⟨3, ⟨0, 0, 10, 10⟩⟩ : WindowPlacement).showCmd = SW_SHOWMAXIMIZED)) :=
  ⟨by decide, by decide,
    move_window_once_spec ⟨3, ⟨0, 0, 10, 10⟩⟩ ⟨0, 0, 1920, 1080⟩ (by decide) (by decide)⟩

/-! ### Claim C4: the watch phase repositions without maximizing -/

theorem maximize_not_mem_corrective (target_rect : Rect) :
    WinCall.showWindow SW_MAXIMIZE ∉ corrective_calls target_rect := by
  simp [corrective_calls, SW_MAXIMIZE, SW_RESTORE]

theorem watch_loop_no_maximize (target_rect : Rect) :
    ∀ (obs : List WindowObs), ∀ calls ∈ watch_loop target_rect obs,
      WinCall.showWindow SW_MAXIMIZE ∉ calls := by
  intro obs
  induction obs with
  | nil => intro calls hc; cases hc
  | cons o rest ih =>
    intro calls hc
    by_cases ha : o.alive
    · rw [watch_loop, if_pos ha] at hc
      rcases List.mem_cons.mp hc with rfl | hc'
      · intro hmem
        rcases List.mem_cons.mp hmem with hhd | htl
        · cases hhd
        · exact maximize_not_mem_corrective target_rect (by
            by_cases ht : o.onTarget
            · rw [if_pos ht] at htl; cases htl
            · rwa [if_neg ht] at htl)
      · exact ih calls hc'
    · rw [watch_loop, if_neg ha] at hc
      rcases List.mem_cons.mp hc with rfl | hc'
      · intro hmem
        rcases List.mem_cons.mp hmem with hhd | htl
        · cases hhd
        · cases htl
      · cases hc'

theorem watch_loop_v0_no_maximize (target_rect : Rect) :
    ∀ (obs : List WindowObs), ∀ calls ∈ watch_loop_v0 target_rect obs,
      WinCall.showWindow SW_MAXIMIZE ∉ calls := by
  intro obs
  induction obs with
  | nil => intro calls hc; cases hc
  | cons o rest ih =>
    intro calls hc
    rw [watch_loop_v0] at hc
    rcases List.mem_cons.mp hc with rfl | hc'
    · intro hmem
      apply maximize_not_mem_corrective target_rect
      by_cases ht : o.onTarget
      · rw [if_pos ht] at hmem; cases hmem
      · rwa [if_neg ht] at hmem
    · exact ih calls hc'

theorem watch_loop_getElem (target_rect : Rect) :
    ∀ (obs : List WindowObs) (i : Nat) (o : WindowObs), obs[i]? = some o →
      o.alive = true → (∀ j oj, j < i → obs[j]? = some oj → oj.alive = true) →
      (watch_loop target_rect obs)[i]? =
        some (WinCall.isWindow true ::
          (if o.onTarget then [] else corrective_calls target_rect)) := by
  intro obs
  induction obs with
  | nil => intro i o ho _ _; simp at ho
  | cons ob rest ih =>
    intro i o ho halive hall
    cases i with
    | zero =>
      rw [List.getElem?_cons] at ho
      simp only [if_pos rfl] at ho
      have hob : ob = o := by exact Option.some.inj ho
      subst hob
      rw [watch_loop, if_pos halive]
      simp
    | succ i =>
      have hhead : ob.alive = true := hall 0 ob (Nat.succ_pos i) (by simp)
      rw [watch_loop, if_pos hhead]
      rw [List.getElem?_cons] at ho
      simp only [Nat.succ_ne_zero, if_neg] at ho
      have ho' : rest[i]? = some o := by simpa using ho
      have hall' : ∀ j oj, j < i → rest[j]? = some oj → oj.alive = true := by
        intro j oj hj hoj
        exact hall (j + 1) oj (by omega) (by simpa using hoj)
      simpa using ih i o ho' halive hall'

theorem watch_loop_v0_getElem (target_rect : Rect) :
    ∀ (obs : List WindowObs) (i : Nat) (o : WindowObs), obs[i]? = some o →
      (watch_loop_v0 target_rect obs)[i]? =
        some (if o.onTarget then [] else corrective_calls target_rect) := by
  intro obs
  induction obs with
  | nil => intro i o ho; simp at ho
  | cons ob rest ih =>
    intro i o ho
    cases i with
    | zero =>
      rw [List.getElem?_cons] at ho
      simp only [if_pos rfl] at ho
      have hob : ob = o := by exact Option.some.inj ho
      subst hob
      rw [watch_loop_v0]
      simp
    | succ i =>
      rw [watch_loop_v0]
      rw [List.getElem?_cons] at ho
      simp only [Nat.succ_ne_zero, if_neg] at ho
      have ho' : rest[i]? = some o := by simpa using ho
      simpa using ih i o ho'

/-- **C4.** Throughout the watch phase (45 s, one check per second), in both
the evolved and the earlier variant: whenever the window is observed off the
target monitor the tick issues exactly the foreground+restore+reposition
corrective calls, whenever it is on target the tick issues nothing, and no
tick ever issues an `SW_MAXIMIZE` command. -/
theorem watch_phase_no_maximize (target_rect : Rect) (obs : List WindowObs) :
    (∀ calls ∈ watch_loop target_rect obs, WinCall.showWindow SW_MAXIMIZE ∉ calls)
    ∧ (∀ calls ∈ watch_loop_v0 target_rect obs, WinCall.showWindow SW_MAXIMIZE ∉ calls)
    ∧ (∀ (i : Nat) (o : WindowObs), obs[i]? = some o → o.alive = true →
        (∀ (j : Nat) (oj : WindowObs), j < i → obs[j]? = some oj → oj.alive = true) →
        (watch_loop target_rect obs)[i]? =
          some (WinCall.isWindow true ::
            (if o.onTarget then [] else corrective_calls target_rect)))
    ∧ (∀ (i : Nat) (o : WindowObs), obs[i]? = some o →
        (watch_loop_v0 target_rect obs)[i]? =
          some (if o.onTarget then [] else corrective_calls target_rect))
    ∧ WATCH_PHASE_SECS = 45 ∧ WATCH_TICK_MILLIS = 1000 :=
  ⟨watch_loop_no_maximize target_rect obs,
   watch_loop_v0_no_maximize target_rect obs,
   watch_loop_getElem target_rect obs,
   watch_loop_v0_getElem target_rect obs,
   rfl, rfl⟩

/-- Witness for C4: a tick that observes the window alive and off target
issues exactly the corrective calls. -/
theorem watch_phase_no_maximize_witness :
    (watch_loop ⟨0, 0, 1920, 1080⟩ [⟨true, false⟩])[0]? =
      some (WinCall.isWindow true :: corrective_calls ⟨0, 0, 1920, 1080⟩) :=
  (watch_phase_no_maximize ⟨0, 0, 1920, 1080⟩ [⟨true, false⟩]).2.2.1 0 ⟨true, false⟩
    (by decide) rfl (fun j oj hj _ => absurd hj (Nat.not_lt_zero j))

/-! ### Claim C5: target-rectangle resolution and the aborted launch -/

theorem failed_msg_ne_notfound_msg (e n : String) :
    "❌ Failed to launch: " ++ e ≠ "❌ Monitor '" ++ n ++ "' not found." := by
  intro h
  have hd := congrArg (fun s => s.data[2]?) h
  simp only [String.data_append] at hd
  have hlen : (2 : Nat) < ("❌ Monitor '".data ++ n.data).length := by
    rw [List.length_append]
    have h11 : "❌ Monitor '".data.length = 11 := by decide
    omega
  have h1 : ("❌ Failed to launch: ".data ++ e.data)[2]? = "❌ Failed to launch: ".data[2]? :=
    List.getElem?_append_left (by decide)
  rw [h1, List.getElem?_append_left hlen,
    List.getElem?_append_left (show (2 : Nat) < "❌ Monitor '".data.length by decide)] at hd
  exact absurd hd (by decide)

/-- **C5.** Resolving a launch profile's target rectangle returns the live
monitor's rectangle on an exact device-name match, otherwise the cached
fallback rectangle; resolution fails exactly when both fail, and in that case
`launch_profile` emits only the monitor-not-found status and never spawns;
when resolution succeeds the monitor-not-found status is never emitted. -/
theorem resolve_target_rect_spec (monitors : List MonitorInfo) (profile : AppProfile)
    (so : Except String Nat) :
    (∀ m : MonitorInfo,
      monitors.find? (fun x => x.device_name == profile.target_monitor_name) = some m →
      resolve_target_rect monitors profile = some m.rect)
    ∧ (monitors.find? (fun x => x.device_name == profile.target_monitor_name) = none →
      resolve_target_rect monitors profile = profile.target_monitor_rect)
    ∧ (resolve_target_rect monitors profile = none ↔
      monitors.find? (fun x => x.device_name == profile.target_monitor_name) = none
      ∧ profile.target_monitor_rect = none)
    ∧ (resolve_target_rect monitors profile = none →
      launch_profile monitors profile so =
        [AppEvent.status ("❌ Monitor '" ++ profile.target_monitor_name ++ "' not found.")]
      ∧ ∀ e : String, AppEvent.spawn e ∉ launch_profile monitors profile so)
    ∧ (∀ r : Rect, resolve_target_rect monitors profile = some r →
      AppEvent.status ("❌ Monitor '" ++ profile.target_monitor_name ++ "' not found.")
        ∉ launch_profile monitors profile so) := by
  refine ⟨?_, ?_, ?_, ?_, ?_⟩
  · intro m hm
    simp [resolve_target_rect, find_monitor_rect, hm, Option.or]
  · intro hm
    simp [resolve_target_rect, find_monitor_rect, hm]
  · cases hf : monitors.find? (fun x => x.device_name == profile.target_monitor_name) with
    | none => simp [resolve_target_rect, find_monitor_rect, hf]
    | some m => simp [resolve_target_rect, find_monitor_rect, hf, Option.or]
  · intro h
    constructor
    · simp [launch_profile, h]
    · intro e
      simp [launch_profile, h]
  · intro r h
    cases so with
    | error e =>
      simp only [launch_profile, h, List.mem_singleton]
      intro hmem
      exact failed_msg_ne_notfound_msg e profile.target_monitor_name
        (AppEvent.status.inj hmem).symm
    | ok pid =>
      simp [launch_profile, h]

/-- Witness for C5: a profile naming an absent monitor with no cached
rectangle aborts with the monitor-not-found status and never spawns. -/
theorem resolve_target_rect_spec_witness :
    resolve_target_rect [] ⟨"P", "C:\\g.exe", "\\\\.\\DISPLAY9", none, none, false, false, none⟩
        = none
    ∧ launch_profile [] ⟨"P", "C:\\g.exe", "\\\\.\\DISPLAY9", none, none, false, false, none⟩
        (Except.ok 7) =
      [AppEvent.status ("❌ Monitor '" ++ "\\\\.\\DISPLAY9" ++ "' not found.")]
    ∧ ∀ e : String, AppEvent.spawn e ∉
        launch_profile [] ⟨"P", "C:\\g.exe", "\\\\.\\DISPLAY9", none, none, false, false, none⟩
          (Except.ok 7) :=
  ⟨by decide,
    ((resolve_target_rect_spec [] ⟨"P", "C:\\g.exe", "\\\\.\\DISPLAY9", none, none, false, false, none⟩
        (Except.ok 7)).2.2.2.1 (by decide)).1,
    ((resolve_target_rect_spec [] ⟨"P", "C:\\g.exe", "\\\\.\\DISPLAY9", none, none, false, false, none⟩
        (Except.ok 7)).2.2.2.1 (by decide)).2⟩

/-! ### Claims C6 and C7: the by-name locator -/

theorem max_by_key_eq_none_iff {α : Type} (key : α → Int) (l : List α) :
    max_by_key key l = none ↔ l = [] := by
  cases l <;> simp [max_by_key]

theorem max_by_key_foldl_spec {α : Type} (key : α → Int) :
    ∀ (l : List α) (acc : α),
      (l.foldl (fun best x => if key best ≤ key x then x else best) acc = acc
        ∨ l.foldl (fun best x => if key best ≤ key x then x else best) acc ∈ l)
      ∧ key acc ≤ key (l.foldl (fun best x => if key best ≤ key x then x else best) acc)
      ∧ ∀ c ∈ l, key c ≤ key (l.foldl (fun best x => if key best ≤ key x then x else best) acc) := by
  intro l
  induction l with
  | nil =>
    intro acc
    exact ⟨Or.inl rfl, le_refl _, by intro c hc; cases hc⟩
  | cons b l ih =>
    intro acc
    by_cases hb : key acc ≤ key b
    · simp only [List.foldl_cons, if_pos hb]
      obtain ⟨h1, h2, h3⟩ := ih b
      refine ⟨?_, le_trans hb h2, ?_⟩
      · rcases h1 with h1 | h1
        · right; rw [h1]; exact List.mem_cons_self _ _
        · right; exact List.mem_cons_of_mem _ h1
      · intro c hc
        rcases List.mem_cons.mp hc with rfl | hc'
        · exact h2
        · exact h3 c hc'
    · simp only [List.foldl_cons, if_neg hb]
      obtain ⟨h1, h2, h3⟩ := ih acc
      refine ⟨?_, h2, ?_⟩
      · rcases h1 with h1 | h1
        · exact Or.inl h1
        · exact Or.inr (List.mem_cons_of_mem _ h1)
      · intro c hc
        rcases List.mem_cons.mp hc with rfl | hc'
        · omega
        · exact h3 c hc'

theorem max_by_key_spec {α : Type} (key : α → Int) (l : List α) (b : α)
    (h : max_by_key key l = some b) : b ∈ l ∧ ∀ c ∈ l, key c ≤ key b := by
  cases l with
  | nil => cases h
  | cons a l =>
    have hb : l.foldl (fun best x => if key best ≤ key x then x else best) a = b := by
      simpa [max_by_key] using h
    obtain ⟨h1, h2, h3⟩ := max_by_key_foldl_spec key l a
    rw [hb] at h1 h2 h3
    refine ⟨?_, ?_⟩
    · rcases h1 with h1 | h1
      · rw [← h1]; exact List.mem_cons_self _ _
      · exact List.mem_cons_of_mem _ h1
    · intro c hc
      rcases List.mem_cons.mp hc with rfl | hc'
      · exact h2
      · exact h3 c hc'

theorem score_v1_toolwindow_le (w : EnumWindow) (h : w.toolWindow = true) :
    score_v1 w ≤ 170 := by
  have hmin : min (Int.tdiv (max ((w.rect.right - w.rect.left) *
      (w.rect.bottom - w.rect.top)) 0) 10000) 200 ≤ 200 := min_le_right _ _
  simp only [score_v1, h]
  split_ifs <;> omega

theorem score_v0_toolwindow_le (w : EnumWindow) (h : w.toolWindow = true) :
    score_v0 w ≤ 70 := by
  have hmin : min (Int.tdiv (max ((w.rect.right - w.rect.left) *
      (w.rect.bottom - w.rect.top)) 0) 10000) 100 ≤ 100 := min_le_right _ _
  simp only [score_v0, h]
  split_ifs <;> omega

/-- **C6.** On the §8 synthetic candidate set — a titled tool window (any
rectangle), an untitled 500×400 window and a titled 1920×1080 window, all
owned by `game.exe` processes — both scoring variants select the 1920×1080
titled window as the unique highest-scoring candidate: it scores 220 (evolved)
and 120 (earlier), strictly above every other candidate. -/
theorem locator_prefers_large_titled_window (toolRect : Rect) (toolRectOk : Bool) :
    find_best_window_by_process_name "game.exe"
      [scenario_tool_window toolRectOk toolRect, scenario_plain_window, scenario_big_window] =
      some ⟨3, 1920, 1080⟩
    ∧ find_window_by_process_name_v0 "game.exe"
      [scenario_tool_window toolRectOk toolRect, scenario_plain_window, scenario_big_window] =
      some 3
    ∧ score_v1 scenario_big_window = 220
    ∧ score_v1 scenario_plain_window = 20
    ∧ score_v1 (scenario_tool_window toolRectOk toolRect) < 220
    ∧ score_v0 scenario_big_window = 120
    ∧ score_v0 scenario_plain_window = 20
    ∧ score_v0 (scenario_tool_window toolRectOk toolRect) < 120 := by
  have htool1 : score_v1 (scenario_tool_window toolRectOk toolRect) ≤ 170 :=
    score_v1_toolwindow_le _ rfl
  have htool0 : score_v0 (scenario_tool_window toolRectOk toolRect) ≤ 70 :=
    score_v0_toolwindow_le _ rfl
  have hct : (candidate_v1 (scenario_tool_window toolRectOk toolRect)).score =
      score_v1 (scenario_tool_window toolRectOk toolRect) := rfl
  refine ⟨?_, ?_, by decide, by decide, by omega, by decide, by decide, by omega⟩
  · have hm1 : matches_target_v1 "game.exe" (scenario_tool_window toolRectOk toolRect) = true := rfl
    have hm2 : matches_target_v1 "game.exe" scenario_plain_window = true := rfl
    have hm3 : matches_target_v1 "game.exe" scenario_big_window = true := rfl
    have hc : candidates_v1 "game.exe"
        [scenario_tool_window toolRectOk toolRect, scenario_plain_window, scenario_big_window] =
        [candidate_v1 (scenario_tool_window toolRectOk toolRect),
         candidate_v1 scenario_plain_window, candidate_v1 scenario_big_window] := by
      simp only [candidates_v1, List.filterMap_cons, hm1, hm2, hm3, if_pos]
      rfl
    rw [find_best_window_by_process_name, hc]
    simp only [max_by_key, List.foldl]
    by_cases h1 : (candidate_v1 (scenario_tool_window toolRectOk toolRect)).score ≤
        (candidate_v1 scenario_plain_window).score
    · rw [if_pos h1,
        if_pos (show (candidate_v1 scenario_plain_window).score ≤
          (candidate_v1 scenario_big_window).score by decide)]
      decide
    · rw [if_neg h1,
        if_pos (show (candidate_v1 (scenario_tool_window toolRectOk toolRect)).score ≤
          (candidate_v1 scenario_big_window).score by
          have hcb : (candidate_v1 scenario_big_window).score = 220 := by decide
          omega)]
      decide
  · have hm1 : matches_target_v0 "game.exe" (scenario_tool_window toolRectOk toolRect) = true := rfl
    have hm2 : matches_target_v0 "game.exe" scenario_plain_window = true := rfl
    have hm3 : matches_target_v0 "game.exe" scenario_big_window = true := rfl
    have hc : candidates_v0 "game.exe"
        [scenario_tool_window toolRectOk toolRect, scenario_plain_window, scenario_big_window] =
      [{ hwnd := (scenario_tool_window toolRectOk toolRect).hwnd,
         score := score_v0 (scenario_tool_window toolRectOk toolRect) },
       { hwnd := scenario_plain_window.hwnd, score := score_v0 scenario_plain_window },
       { hwnd := scenario_big_window.hwnd, score := score_v0 scenario_big_window }] := by
      simp only [candidates_v0, List.filterMap_cons, hm1, hm2, hm3, if_pos]
      rfl
    rw [find_window_by_process_name_v0, hc]
    simp only [max_by_key, List.foldl]
    by_cases h1 : score_v0 (scenario_tool_window toolRectOk toolRect) ≤ score_v0 scenario_plain_window
    · rw [if_pos h1]
      dsimp only
      rw [if_pos (show score_v0 scenario_plain_window ≤ score_v0 scenario_big_window by decide)]
      decide
    · rw [if_neg h1]
      dsimp only
      rw [if_pos (show score_v0 (scenario_tool_window toolRectOk toolRect) ≤
          score_v0 scenario_big_window by
        have hcb : score_v0 scenario_big_window = 120 := by decide
        omega)]
      decide

/-- Witness for C6 at a concrete 300×200 tool-window rectangle. -/
theorem locator_prefers_large_titled_window_witness :
    find_best_window_by_process_name "game.exe"
      [scenario_tool_window true ⟨0, 0, 300, 200⟩, scenario_plain_window, scenario_big_window] =
      some ⟨3, 1920, 1080⟩
    ∧ find_window_by_process_name_v0 "game.exe"
      [scenario_tool_window true ⟨0, 0, 300, 200⟩, scenario_plain_window, scenario_big_window] =
      some 3 :=
  ⟨(locator_prefers_large_titled_window ⟨0, 0, 300, 200⟩ true).1,
   (locator_prefers_large_titled_window ⟨0, 0, 300, 200⟩ true).2.1⟩

/-- **C7.** The evolved by-name search reports not-found exactly when no
candidate attains a strictly positive score (the empty candidate set
included), whereas the earlier variant reports not-found only on an empty
candidate set and otherwise returns a maximum-scoring candidate even when its
score is zero or negative. -/
theorem locator_not_found_semantics (target : String) (ws : List EnumWindow) :
    (find_best_window_by_process_name target ws = none ↔
      ∀ c ∈ candidates_v1 target ws, c.score ≤ 0)
    ∧ (find_window_by_process_name_v0 target ws = none ↔ candidates_v0 target ws = [])
    ∧ (candidates_v0 target ws ≠ [] →
      ∃ best ∈ candidates_v0 target ws,
        find_window_by_process_name_v0 target ws = some best.hwnd
        ∧ ∀ c ∈ candidates_v0 target ws, c.score ≤ best.score) := by
  refine ⟨?_, ?_, ?_⟩
  · constructor
    · intro h c hc
      by_contra hpos
      push_neg at hpos
      cases hm : max_by_key (fun c => c.score) (candidates_v1 target ws) with
      | none =>
        rw [max_by_key_eq_none_iff] at hm
        rw [hm] at hc
        cases hc
      | some best =>
        obtain ⟨hbmem, hble⟩ := max_by_key_spec _ _ _ hm
        have hbpos : 0 < best.score := lt_of_lt_of_le hpos (hble c hc)
        rw [find_best_window_by_process_name, hm] at h
        simp [hbpos] at h
    · intro h
      cases hm : max_by_key (fun c => c.score) (candidates_v1 target ws) with
      | none => simp [find_best_window_by_process_name, hm]
      | some best =>
        obtain ⟨hbmem, _⟩ := max_by_key_spec _ _ _ hm
        have hbn : ¬ best.score > 0 := by
          have := h best hbmem
          omega
        simp [find_best_window_by_process_name, hm, hbn]
  · constructor
    · intro h
      by_contra hne
      cases hm : max_by_key (fun c => c.score) (candidates_v0 target ws) with
      | none => exact hne ((max_by_key_eq_none_iff _ _).mp hm)
      | some best =>
        rw [find_window_by_process_name_v0, hm] at h
        cases h
    · intro h
      simp [find_window_by_process_name_v0, h, max_by_key]
  · intro hne
    cases hm : max_by_key (fun c => c.score) (candidates_v0 target ws) with
    | none => exact absurd ((max_by_key_eq_none_iff _ _).mp hm) hne
    | some best =>
      obtain ⟨hbmem, hble⟩ := max_by_key_spec _ _ _ hm
      exact ⟨best, hbmem, by simp [find_window_by_process_name_v0, hm], hble⟩

/-- Witness for C7: a single negative-scoring candidate (a tiny untitled tool
window) — the evolved search reports not-found, the earlier one returns it. -/
theorem locator_not_found_semantics_witness :
    find_best_window_by_process_name "game.exe"
      [⟨5, true, 9, true, true, "game.exe", true, true, ⟨0, 0, 100, 50⟩, 0⟩] = none
    ∧ find_window_by_process_name_v0 "game.exe"
      [⟨5, true, 9, true, true, "game.exe", true, true, ⟨0, 0, 100, 50⟩, 0⟩] = some 5 :=
  ⟨(locator_not_found_semantics "game.exe"
      [⟨5, true, 9, true, true, "game.exe", true, true, ⟨0, 0, 100, 50⟩, 0⟩]).1.mpr
      (by decide),
   by decide⟩

/-! ### Claim C8: force-primary failure handling -/

/-- C8 counterexample: with a live, switchable target and a failing spawn, the
force-primary path reports the spawn-failure status *first* and only then
restores the snapshot — the snapshot is not restored before the spawn error
status is reported, refuting the claim's ordering. -/
theorem spawn_failure_status_precedes_restore :
    ¬ eventBefore
        (launch_profile_force_primary [⟨"\\\\.\\DISPLAY1", ⟨0, 0, 1920, 1080⟩⟩]
          ⟨"G", "C:\\g.exe", "\\\\.\\DISPLAY1", none, none, true, false, none⟩
          (Except.error "access denied"))
        LaunchEvent.restoreLayout
        (LaunchEvent.status ("❌ Failed to launch: " ++ "access denied"))
    ∧ LaunchEvent.restoreLayout ∈
        launch_profile_force_primary [⟨"\\\\.\\DISPLAY1", ⟨0, 0, 1920, 1080⟩⟩]
          ⟨"G", "C:\\g.exe", "\\\\.\\DISPLAY1", none, none, true, false, none⟩
          (Except.error "access denied")
    ∧ eventBefore
        (launch_profile_force_primary [⟨"\\\\.\\DISPLAY1", ⟨0, 0, 1920, 1080⟩⟩]
          ⟨"G", "C:\\g.exe", "\\\\.\\DISPLAY1", none, none, true, false, none⟩
          (Except.error "access denied"))
        (LaunchEvent.status ("❌ Failed to launch: " ++ "access denied"))
        LaunchEvent.restoreLayout := by
  decide

/-- **C8 (amended).** In the force-primary launch path: if the primary-switch
step fails, the launch aborts with an error status — no process is spawned and
no restore is issued; if the spawn fails after a successful switch, the
snapshot is restored before the launch call returns, the restore being issued
immediately *after* the spawn error status is reported (not before it). -/
theorem force_primary_failure_handling (monitors : List MonitorInfo)
    (profile : AppProfile) (e : String) :
    (monitors.find? (fun m => m.device_name == profile.target_monitor_name) = none →
      ∀ r : Rect, profile.target_monitor_rect = some r →
      launch_profile_force_primary monitors profile (Except.error e) =
        [LaunchEvent.status ("⏳ Switching primary to " ++ profile.target_monitor_name ++ "..."),
         LaunchEvent.status "❌ Failed to switch primary monitor."]
      ∧ (∀ pid : Nat, LaunchEvent.spawned pid ∉
          launch_profile_force_primary monitors profile (Except.error e))
      ∧ LaunchEvent.restoreLayout ∉
          launch_profile_force_primary monitors profile (Except.error e))
    ∧ (∀ m : MonitorInfo,
      monitors.find? (fun m => m.device_name == profile.target_monitor_name) = some m →
      launch_profile_force_primary monitors profile (Except.error e) =
        [LaunchEvent.status ("⏳ Switching primary to " ++ profile.target_monitor_name ++ "..."),
         LaunchEvent.switchPrimary profile.target_monitor_name, LaunchEvent.settleDelay 1500,
         LaunchEvent.status ("❌ Failed to launch: " ++ e), LaunchEvent.restoreLayout]
      ∧ (launch_profile_force_primary monitors profile (Except.error e)).getLast? =
          some LaunchEvent.restoreLayout
      ∧ (∀ pid : Nat, LaunchEvent.spawned pid ∉
          launch_profile_force_primary monitors profile (Except.error e))
      ∧ eventBefore (launch_profile_force_primary monitors profile (Except.error e))
          (LaunchEvent.status ("❌ Failed to launch: " ++ e)) LaunchEvent.restoreLayout) := by
  constructor
  · intro hf r hr
    have htr : launch_profile_force_primary monitors profile (Except.error e) =
        [LaunchEvent.status ("⏳ Switching primary to " ++ profile.target_monitor_name ++ "..."),
         LaunchEvent.status "❌ Failed to switch primary monitor."] := by
      simp [launch_profile_force_primary, find_monitor_rect, hf, hr, Option.or]
    refine ⟨htr, ?_, ?_⟩
    · intro pid
      rw [htr]
      simp
    · rw [htr]
      simp
  · intro m hf
    have htr : launch_profile_force_primary monitors profile (Except.error e) =
        [LaunchEvent.status ("⏳ Switching primary to " ++ profile.target_monitor_name ++ "..."),
         LaunchEvent.switchPrimary profile.target_monitor_name, LaunchEvent.settleDelay 1500,
         LaunchEvent.status ("❌ Failed to launch: " ++ e), LaunchEvent.restoreLayout] := by
      simp [launch_profile_force_primary, find_monitor_rect, hf, Option.or]
    refine ⟨htr, by rw [htr]; rfl, ?_, ?_⟩
    · intro pid
      rw [htr]
      simp
    · rw [htr]
      exact ⟨⟨3, by simp⟩, ⟨4, by simp⟩, by simp, rfl, rfl⟩

/-- Witness for C8 at the two concrete failure scenarios. -/
theorem force_primary_failure_handling_witness :
    (launch_profile_force_primary [⟨"\\\\.\\DISPLAY1", ⟨0, 0, 1920, 1080⟩⟩]
        ⟨"G", "C:\\g.exe", "\\\\.\\DISPLAY2", some ⟨1920, 0, 3840, 1080⟩, none, true, false, none⟩
        (Except.error "io error") =
      [LaunchEvent.status ("⏳ Switching primary to " ++ "\\\\.\\DISPLAY2" ++ "..."),
       LaunchEvent.status "❌ Failed to switch primary monitor."])
    ∧ (∀ pid : Nat, LaunchEvent.spawned pid ∉
        launch_profile_force_primary [⟨"\\\\.\\DISPLAY1", ⟨0, 0, 1920, 1080⟩⟩]
          ⟨"G", "C:\\g.exe", "\\\\.\\DISPLAY2", some ⟨1920, 0, 3840, 1080⟩, none, true, false, none⟩
          (Except.error "io error"))
    ∧ (launch_profile_force_primary [⟨"\\\\.\\DISPLAY1", ⟨0, 0, 1920, 1080⟩⟩]
        ⟨"G", "C:\\g.exe", "\\\\.\\DISPLAY1", none, none, true, false, none⟩
        (Except.error "io error")).getLast? = some LaunchEvent.restoreLayout
    ∧ eventBefore
        (launch_profile_force_primary [⟨"\\\\.\\DISPLAY1", ⟨0, 0, 1920, 1080⟩⟩]
          ⟨"G", "C:\\g.exe", "\\\\.\\DISPLAY1", none, none, true, false, none⟩
          (Except.error "io error"))
        (LaunchEvent.status ("❌ Failed to launch: " ++ "io error")) LaunchEvent.restoreLayout :=
  ⟨((force_primary_failure_handling [⟨"\\\\.\\DISPLAY1", ⟨0, 0, 1920, 1080⟩⟩]
      ⟨"G", "C:\\g.exe", "\\\\.\\DISPLAY2", some ⟨1920, 0, 3840, 1080⟩, none, true, false, none⟩
      "io error").1 (by decide) ⟨1920, 0, 3840, 1080⟩ rfl).1,
   ((force_primary_failure_handling [⟨"\\\\.\\DISPLAY1", ⟨0, 0, 1920, 1080⟩⟩]
      ⟨"G", "C:\\g.exe", "\\\\.\\DISPLAY2", some ⟨1920, 0, 3840, 1080⟩, none, true, false, none⟩
      "io error").1 (by decide) ⟨1920, 0, 3840, 1080⟩ rfl).2.1,
   ((force_primary_failure_handling [⟨"\\\\.\\DISPLAY1", ⟨0, 0, 1920, 1080⟩⟩]
      ⟨"G", "C:\\g.exe", "\\\\.\\DISPLAY1", none, none, true, false, none⟩
      "io error").2 ⟨"\\\\.\\DISPLAY1", ⟨0, 0, 1920, 1080⟩⟩ (by decide)).2.1,
   ((force_primary_failure_handling [⟨"\\\\.\\DISPLAY1", ⟨0, 0, 1920, 1080⟩⟩]
      ⟨"G", "C:\\g.exe", "\\\\.\\DISPLAY1", none, none, true, false, none⟩
      "io error").2 ⟨"\\\\.\\DISPLAY1", ⟨0, 0, 1920, 1080⟩⟩ (by decide)).2.2.2⟩

/-! ### Claim C9: liveness checks in the launch-and-lock placement -/

theorem watch_loop_chunk_shape (target_rect : Rect) :
    ∀ (obs : List WindowObs), ∀ chunk ∈ watch_loop target_rect obs,
      ∃ (b : Bool) (rest : List WinCall),
        chunk = WinCall.isWindow b :: rest ∧ (b = false → rest = []) := by
  intro obs
  induction obs with
  | nil => intro chunk hc; cases hc
  | cons o tail ih =>
    intro chunk hc
    by_cases ha : o.alive
    · rw [watch_loop, if_pos ha] at hc
      rcases List.mem_cons.mp hc with rfl | hc'
      · exact ⟨true, _, rfl, by intro h; cases h⟩
      · exact ih chunk hc'
    · rw [watch_loop, if_neg ha] at hc
      rcases List.mem_cons.mp hc with rfl | hc'
      · exact ⟨false, [], rfl, fun _ => rfl⟩
      · cases hc'

theorem watch_loop_dead_last (target_rect : Rect) :
    ∀ (obs : List WindowObs) (i : Nat) (rest : List WinCall),
      (watch_loop target_rect obs)[i]? = some (WinCall.isWindow false :: rest) →
      (watch_loop target_rect obs).length = i + 1 := by
  intro obs
  induction obs with
  | nil => intro i rest h; simp [watch_loop] at h
  | cons o tail ih =>
    intro i rest h
    by_cases ha : o.alive
    · rw [watch_loop, if_pos ha] at h ⊢
      cases i with
      | zero => simp at h
      | succ i =>
        have := ih i rest (by simpa using h)
        simp [this]
    · rw [watch_loop, if_neg ha] at h ⊢
      cases i with
      | zero => rfl
      | succ i => simp at h

theorem settle_chunk_shape (target_rect : Rect) :
    ∀ (obs : List WindowObs), ∀ chunk ∈ (settle_attempts target_rect obs).1,
      chunk = WinCall.isWindow true :: attempt_calls target_rect
      ∨ chunk = [WinCall.isWindow false] := by
  intro obs
  induction obs with
  | nil => intro chunk hc; cases hc
  | cons o tail ih =>
    intro chunk hc
    by_cases ha : o.alive
    · by_cases ht : o.onTarget
      · rw [settle_attempts, if_pos ha, if_pos ht] at hc
        rcases List.mem_cons.mp hc with rfl | hc'
        · exact Or.inl rfl
        · cases hc'
      · rw [settle_attempts, if_pos ha, if_neg ht] at hc
        rcases List.mem_cons.mp hc with rfl | hc'
        · exact Or.inl rfl
        · exact ih chunk hc'
    · rw [settle_attempts, if_neg ha] at hc
      rcases List.mem_cons.mp hc with rfl | hc'
      · exact Or.inr rfl
      · cases hc'

theorem settle_dead (target_rect : Rect) :
    ∀ (obs : List WindowObs) (i : Nat) (rest : List WinCall),
      (settle_attempts target_rect obs).1[i]? = some (WinCall.isWindow false :: rest) →
      rest = [] ∧ (settle_attempts target_rect obs).2 = true
      ∧ (settle_attempts target_rect obs).1.length = i + 1 := by
  intro obs
  induction obs with
  | nil => intro i rest h; simp [settle_attempts] at h
  | cons o tail ih =>
    intro i rest h
    by_cases ha : o.alive
    · by_cases ht : o.onTarget
      · rw [settle_attempts, if_pos ha, if_pos ht] at h ⊢
        cases i with
        | zero => simp [attempt_calls] at h
        | succ i => simp at h
      · rw [settle_attempts, if_pos ha, if_neg ht] at h ⊢
        cases i with
        | zero => simp [attempt_calls] at h
        | succ i =>
          obtain ⟨h1, h2, h3⟩ := ih i rest (by simpa using h)
          exact ⟨h1, h2, by simp [h3]⟩
    · rw [settle_attempts, if_neg ha] at h ⊢
      cases i with
      | zero =>
        have : WinCall.isWindow false :: rest = [WinCall.isWindow false] := by
          have h0 : ([[WinCall.isWindow false]] : List (List WinCall))[0]? =
              some [WinCall.isWindow false] := rfl
          exact Option.some.inj (h0 ▸ h.symm)
        exact ⟨by simpa using this, rfl, rfl⟩
      | succ i => simp at h

theorem move_to_monitor_chunk_shape (target_rect : Rect) (p1 p2 : List WindowObs) :
    ∀ chunk ∈ move_to_monitor target_rect p1 p2,
      ∃ (b : Bool) (rest : List WinCall),
        chunk = WinCall.isWindow b :: rest ∧ (b = false → rest = []) := by
  intro chunk hc
  rw [move_to_monitor] at hc
  by_cases hd : (settle_attempts target_rect (p1.take 12)).2
  · rw [if_pos hd] at hc
    rcases settle_chunk_shape target_rect _ chunk hc with h | h
    · exact ⟨true, _, h, by intro hh; cases hh⟩
    · exact ⟨false, [], h, fun _ => rfl⟩
  · rw [if_neg hd] at hc
    rcases List.mem_append.mp hc with h | h
    · rcases settle_chunk_shape target_rect _ chunk h with h' | h'
      · exact ⟨true, _, h', by intro hh; cases hh⟩
      · exact ⟨false, [], h', fun _ => rfl⟩
    · exact watch_loop_chunk_shape target_rect _ chunk h

theorem move_to_monitor_dead_last (target_rect : Rect) (p1 p2 : List WindowObs) :
    ∀ (i : Nat) (rest : List WinCall),
      (move_to_monitor target_rect p1 p2)[i]? = some (WinCall.isWindow false :: rest) →
      (move_to_monitor target_rect p1 p2).length = i + 1 := by
  intro i rest h
  rw [move_to_monitor] at h ⊢
  by_cases hd : (settle_attempts target_rect (p1.take 12)).2
  · rw [if_pos hd] at h ⊢
    exact (settle_dead target_rect _ i rest h).2.2
  · rw [if_neg hd] at h ⊢
    by_cases hi : i < (settle_attempts target_rect (p1.take 12)).1.length
    · rw [List.getElem?_append_left hi] at h
      exact absurd (settle_dead target_rect _ i rest h).2.1 hd
    · push_neg at hi
      rw [List.getElem?_append_right hi] at h
      have hw := watch_loop_dead_last target_rect p2 _ rest h
      rw [List.length_append, hw]
      omega

/-- C9 counterexample: the earlier `move_to_monitor` (src/main.rs:860-917)
run against a window that no longer exists still issues reposition calls, and
its whole trace contains no liveness check at all — it does not return
silently when the window is gone. -/
theorem move_to_monitor_v0_no_liveness_check :
    WinCall.setWindowPos 0 0 100 100 ∈
      (move_to_monitor_v0 ⟨0, 0, 100, 100⟩ (List.replicate 12 ⟨false, false⟩)
        [⟨false, false⟩]).flatten
    ∧ ∀ c ∈ (move_to_monitor_v0 ⟨0, 0, 100, 100⟩ (List.replicate 12 ⟨false, false⟩)
        [⟨false, false⟩]).flatten, c ≠ WinCall.isWindow true ∧ c ≠ WinCall.isWindow false := by
  decide

/-- **C9 (amended).** In the *evolved* launch-and-lock placement
(src/window.rs) and the one-shot move: every per-step chunk of
`move_to_monitor` and of the watch loop begins with an `IsWindow` liveness
check; a failed check is the last chunk of the trace and contains no further
window call, so the operation returns silently; a dead window makes the
one-shot move return right after its sole liveness check.  (The earlier
`move_to_monitor` of src/main.rs performs no liveness checks — see the
counterexample theorem.) -/
theorem placement_liveness_first (target_rect : Rect) (p1 p2 : List WindowObs)
    (placement : WindowPlacement) :
    (∀ chunk ∈ move_to_monitor target_rect p1 p2,
      ∃ (b : Bool) (rest : List WinCall),
        chunk = WinCall.isWindow b :: rest ∧ (b = false → rest = []))
    ∧ (∀ (i : Nat) (rest : List WinCall),
        (move_to_monitor target_rect p1 p2)[i]? = some (WinCall.isWindow false :: rest) →
        (move_to_monitor target_rect p1 p2).length = i + 1)
    ∧ (∀ chunk ∈ watch_loop target_rect p2,
      ∃ (b : Bool) (rest : List WinCall),
        chunk = WinCall.isWindow b :: rest ∧ (b = false → rest = []))
    ∧ (∀ (i : Nat) (rest : List WinCall),
        (watch_loop target_rect p2)[i]? = some (WinCall.isWindow false :: rest) →
        (watch_loop target_rect p2).length = i + 1)
    ∧ move_window_once false placement target_rect = [WinCall.isWindow false]
    ∧ (∃ rest : List WinCall,
        move_window_once true placement target_rect = WinCall.isWindow true :: rest) :=
  ⟨move_to_monitor_chunk_shape target_rect p1 p2,
   move_to_monitor_dead_last target_rect p1 p2,
   watch_loop_chunk_shape target_rect p2,
   watch_loop_dead_last target_rect p2,
   rfl,
   ⟨_, rfl⟩⟩

/-- Witness for C9: on a window dead from the first attempt, the evolved
placement stops after the single liveness check, and the dead one-shot move
issues nothing but its check. -/
theorem placement_liveness_first_witness :
    move_window_once false ⟨9, ⟨0, 0, 10, 10⟩⟩ ⟨0, 0, 100, 100⟩ = [WinCall.isWindow false]
    ∧ (move_to_monitor ⟨0, 0, 100, 100⟩ [⟨false, false⟩] []).length = 0 + 1 :=
  ⟨(placement_liveness_first ⟨0, 0, 100, 100⟩ [⟨false, false⟩] [] ⟨9, ⟨0, 0, 10, 10⟩⟩).2.2.2.2.1,
   (placement_liveness_first ⟨0, 0, 100, 100⟩ [⟨false, false⟩] [] ⟨9, ⟨0, 0, 10, 10⟩⟩).2.1 0 []
     (by decide)⟩

/-! ### Claim C10: the visible-window listing -/

theorem lexLe_total : ∀ a b : List Char, (lexLe a b || lexLe b a) = true := by
  intro a
  induction a with
  | nil => intro b; simp [lexLe]
  | cons x xs ih =>
    intro b
    cases b with
    | nil => simp [lexLe]
    | cons y ys =>
      simp only [lexLe]
      by_cases h1 : x < y
      · have h2 : ¬ y < x := lt_asymm h1
        simp [h1, h2]
      · by_cases h2 : y < x
        · simp [h1, h2]
        · simp only [if_neg h1, if_neg h2]
          exact ih ys

theorem lexLe_trans : ∀ a b c : List Char,
    lexLe a b = true → lexLe b c = true → lexLe a c = true := by
  intro a
  induction a with
  | nil => intro b c _ _; rfl
  | cons x xs ih =>
    intro b c hab hbc
    cases b with
    | nil => simp [lexLe] at hab
    | cons y ys =>
      cases c with
      | nil => simp [lexLe] at hbc
      | cons z zs =>
        simp only [lexLe] at hab hbc ⊢
        by_cases hxy : x < y
        · by_cases hyz : y < z
          · simp [lt_trans hxy hyz]
          · by_cases hzy : z < y
            · simp [if_neg hyz, if_pos hzy] at hbc
            · have hy : y = z := le_antisymm (le_of_not_lt hzy) (le_of_not_lt hyz)
              subst hy
              simp [hxy]
        · by_cases hyx : y < x
          · simp [if_neg hxy, if_pos hyx] at hab
          · have hx : x = y := le_antisymm (le_of_not_lt hyx) (le_of_not_lt hxy)
            subst hx
            rw [if_neg hxy, if_neg hyx] at hab
            by_cases hxz : x < z
            · simp [hxz]
            · by_cases hzx : z < x
              · simp [if_neg hxz, if_pos hzx] at hbc
              · rw [if_neg hxz, if_neg hzx] at hbc ⊢
                exact ih ys zs hab hbc

theorem entry_of_window_some_props (w : VisWindow) (e : ProcessEntry)
    (h : entry_of_window w = some e) :
    w.visible = true ∧ w.toolWindow = false ∧ 0 < w.titleLen := by
  by_cases h1 : w.visible
  · by_cases h2 : w.toolWindow
    · simp [entry_of_window, h1, h2] at h
    · by_cases h3 : w.titleLen = 0
      · simp [entry_of_window, h1, h2, h3] at h
      · exact ⟨h1, by simpa using h2, Nat.pos_of_ne_zero h3⟩
  · simp [entry_of_window, h1] at h

theorem entry_of_window_unqueryable (w : VisWindow)
    (hv : w.visible = true) (ht : w.toolWindow = false) (htl : 0 < w.titleLen)
    (hq : w.openOk = false ∨ w.queryOk = false) :
    entry_of_window w = some
      { hwnd := w.hwnd, pid := w.pid, exe_path := none,
        label := "PID " ++ toString w.pid ++ " — " ++ trimNullChars w.title } := by
  have h3 : ¬ w.titleLen = 0 := by omega
  rcases hq with hq | hq
  · simp [entry_of_window, hv, ht, h3, hq]
  · by_cases ho : w.openOk <;> simp [entry_of_window, hv, ht, h3, hq, ho]

/-- **C10.** Every entry of `list_visible_windows` comes from a window that is
visible, not a tool window, and has a non-empty title; the returned list is
sorted ascending by its label string; and a window whose owning process cannot
be opened or queried is still included, labelled `"PID <pid>"` in place of the
executable name. -/
theorem list_visible_windows_spec (ws : List VisWindow) :
    (∀ e ∈ list_visible_windows ws, ∃ w ∈ ws,
      w.visible = true ∧ w.toolWindow = false ∧ 0 < w.titleLen
      ∧ entry_of_window w = some e)
    ∧ List.Sorted (fun a b => label_le a b = true) (list_visible_windows ws)
    ∧ (∀ w ∈ ws, w.visible = true → w.toolWindow = false → 0 < w.titleLen →
      (w.openOk = false ∨ w.queryOk = false) →
      ∃ e ∈ list_visible_windows ws, e.hwnd = w.hwnd
        ∧ e.label = "PID " ++ toString w.pid ++ " — " ++ trimNullChars w.title) := by
  have hperm := List.perm_insertionSort
    (fun a b : ProcessEntry => label_le a b = true) (ws.filterMap entry_of_window)
  refine ⟨?_, ?_, ?_⟩
  · intro e he
    have he' : e ∈ ws.filterMap entry_of_window := hperm.mem_iff.mp he
    obtain ⟨w, hw, hsome⟩ := List.mem_filterMap.mp he'
    obtain ⟨h1, h2, h3⟩ := entry_of_window_some_props w e hsome
    exact ⟨w, hw, h1, h2, h3, hsome⟩
  · haveI : IsTrans ProcessEntry (fun a b => label_le a b = true) :=
      ⟨fun a b c hab hbc => lexLe_trans _ _ _ hab hbc⟩
    haveI : IsTotal ProcessEntry (fun a b => label_le a b = true) :=
      ⟨fun a b => by
        have htot := lexLe_total a.label.data b.label.data
        cases h1 : lexLe a.label.data b.label.data with
        | true => exact Or.inl h1
        | false =>
          rw [h1, Bool.false_or] at htot
          exact Or.inr htot⟩
    exact List.sorted_insertionSort _ _
  · intro w hw hv ht htl hq
    have he := entry_of_window_unqueryable w hv ht htl hq
    refine ⟨_, hperm.mem_iff.mpr (List.mem_filterMap.mpr ⟨w, hw, he⟩), rfl, rfl⟩

/-- Witness for C10: two windows, one with an unopenable owning process,
listed sorted with the `PID` fallback label. -/
theorem list_visible_windows_spec_witness :
    (⟨7, true, false, 4, "Doom", 44, false, true, "x"⟩ : VisWindow) ∈
        ([⟨1, true, false, 1, "B", 5, true, true, "C:\\a.exe"⟩,
          ⟨7, true, false, 4, "Doom", 44, false, true, "x"⟩] : List VisWindow)
    ∧ ∃ e ∈ list_visible_windows
        [⟨1, true, false, 1, "B", 5, true, true, "C:\\a.exe"⟩,
         ⟨7, true, false, 4, "Doom", 44, false, true, "x"⟩],
      e.hwnd = 7 ∧ e.label = "PID " ++ toString (44 : Nat) ++ " — " ++ trimNullChars "Doom" :=
  ⟨by decide,
   (list_visible_windows_spec
      [⟨1, true, false, 1, "B", 5, true, true, "C:\\a.exe"⟩,
       ⟨7, true, false, 4, "Doom", 44, false, true, "x"⟩]).2.2
      ⟨7, true, false, 4, "Doom", 44, false, true, "x"⟩ (by decide) rfl rfl (by decide)
      (Or.inl rfl)⟩

end DisplayWarp
